import Mathlib

/-!
# task-manager: a verification development

A shallow embedding of the task-management service (`internal/model`,
`internal/db`, `internal/service`, `internal/api`) together with theorems
about its storage contract, its entity services and its request handlers.

Conventions of the embedding.

* Go `string` values are Lean `String`s.  Every string a handler sees comes
  out of the JSON decoder, hence is a sequence of Unicode scalar values.
* A Go method that mutates the record behind its pointer argument returns
  the record as it stands after the call, next to the error and the state.
* The SQLite tables are lists of rows, in insertion order; the schema's
  `PRIMARY KEY` and `UNIQUE` constraints are checked by the inserts and
  recorded by `Store.WF`.  The connection is opened without the
  `_foreign_keys` option, so the `FOREIGN KEY` clause is not enforced.
* `uuid.New()` is the only source of randomness; the value it yields is an
  argument of the two operations that call it.
-/

set_option linter.dupNamespace false

namespace TaskPlanner

/-! ## internal/model/task.go -/

/-- The `model.Task` record. -/
structure Task where
  ID : String
  Title : String
  Description : String
  DueDate : String
  Status : String
  UserID : String
  deriving DecidableEq, Repr, Inhabited

/-- The `model.User` record. -/
structure User where
  ID : String
  Name : String
  Email : String
  deriving DecidableEq, Repr, Inhabited

/-! ## internal/db/errors.go -/

/-- Go `error` values met in the program: the two sentinels of
`internal/db/errors.go`, and any other error, known by its message. -/
inductive Error where
  | ErrUserNotFound
  | ErrTaskNotFound
  | other (msg : String)
  deriving DecidableEq, Repr, Inhabited

/-- The `Error()` method: the message of an error value. -/
def Error.Error : Error → String
  | .ErrUserNotFound => "user not found"
  | .ErrTaskNotFound => "task not found"
  | .other msg => msg

/-! ## github.com/google/uuid -/

/-- A `uuid.UUID`: sixteen bytes. -/
structure UUID where
  bytes : Fin 16 → Fin 256

/-- One lower-case hexadecimal digit. -/
def hexDigit (n : Nat) : Char :=
  "0123456789abcdef".data.getD n '0'

/-- The two hexadecimal digits of a byte. -/
def hexByte (b : Fin 256) : List Char :=
  [hexDigit (b.val / 16), hexDigit (b.val % 16)]

/-- The `UUID.String` method: the form
`xxxxxxxx-xxxx-xxxx-xxxx-xxxxxxxxxxxx`. -/
def UUID.String (u : UUID) : String :=
  ⟨hexByte (u.bytes 0) ++ hexByte (u.bytes 1) ++ hexByte (u.bytes 2) ++ hexByte (u.bytes 3)
    ++ ['-'] ++ hexByte (u.bytes 4) ++ hexByte (u.bytes 5)
    ++ ['-'] ++ hexByte (u.bytes 6) ++ hexByte (u.bytes 7)
    ++ ['-'] ++ hexByte (u.bytes 8) ++ hexByte (u.bytes 9)
    ++ ['-'] ++ hexByte (u.bytes 10) ++ hexByte (u.bytes 11) ++ hexByte (u.bytes 12)
    ++ hexByte (u.bytes 13) ++ hexByte (u.bytes 14) ++ hexByte (u.bytes 15)⟩

/-! ## internal/db/interface.go -/

/-- The `db.DB` interface over a state type `σ`.  The reading methods leave
the state alone; the others return the new state.  `CreateUser`,
`CreateTask` and `UpdateTask` take a pointer and so also return the record
as the callee left it. -/
structure DB (σ : Type) where
  CreateUser : UUID → σ → User → σ × User × Option Error
  GetUser : σ → String → Except Error User
  ListUsers : σ → Except Error (List User)
  DeleteUser : σ → String → σ × Option Error
  CreateTask : UUID → σ → Task → σ × Task × Option Error
  GetTask : σ → String → Except Error Task
  ListTasks : σ → String → String → Except Error (List Task)
  UpdateTask : σ → Task → σ × Task × Option Error
  DeleteTask : σ → String → String → σ × Option Error

/-! ## internal/db/database.go -/

/-- The contents of the two tables created by `NewSQLiteDB`. -/
structure Store where
  users : List User
  tasks : List Task
  deriving DecidableEq, Repr, Inhabited

/-- The constraints of the schema: `users.id` and `tasks.id` are primary
keys and `users.email` is unique. -/
def Store.WF (s : Store) : Prop :=
  (s.users.map (·.ID)).Nodup ∧ (s.users.map (·.Email)).Nodup ∧ (s.tasks.map (·.ID)).Nodup

instance (s : Store) : Decidable s.WF := by
  unfold Store.WF; infer_instance

/-- The empty database `NewSQLiteDB` creates. -/
def Store.empty : Store := ⟨[], []⟩

namespace SQLiteDB

/-- The `SQLiteDB.CreateTask` method: a fresh id, then one `INSERT`. -/
def CreateTask (u : UUID) (s : Store) (task : Task) : Store × Task × Option Error :=
  let task := { task with ID := u.String }
  if s.tasks.any (fun r => r.ID == task.ID) then
    (s, task, some (.other "UNIQUE constraint failed: tasks.id"))
  else
    ({ s with tasks := s.tasks ++ [task] }, task, none)

/-- The `SQLiteDB.GetTask` method: `SELECT ... WHERE id = ?`, first row. -/
def GetTask (s : Store) (id : String) : Except Error Task :=
  match s.tasks.find? (fun r => r.ID == id) with
  | none => .error .ErrTaskNotFound
  | some task => .ok task

/-- The `SQLiteDB.ListTasks` method. -/
def ListTasks (s : Store) (userID : String) (status : String) : Except Error (List Task) :=
  if status == "" then
    .ok (s.tasks.filter (fun r => r.UserID == userID))
  else
    .ok (s.tasks.filter (fun r => r.UserID == userID && r.Status == status))

/-- The columns `UpdateTask` may assign. -/
inductive Column where
  | title | description | due_date | status
  deriving DecidableEq, Repr

/-- One `column = ?` assignment applied to a row. -/
def setColumn (r : Task) : Column × String → Task
  | (.title, v) => { r with Title := v }
  | (.description, v) => { r with Description := v }
  | (.due_date, v) => { r with DueDate := v }
  | (.status, v) => { r with Status := v }

/-- The `updates`/`args` lists `UpdateTask` builds, paired up. -/
def updates (task : Task) : List (Column × String) :=
  (if task.Title ≠ "" then [(Column.title, task.Title)] else [])
  ++ (if task.Description ≠ "" then [(Column.description, task.Description)] else [])
  ++ (if task.DueDate ≠ "" then [(Column.due_date, task.DueDate)] else [])
  ++ (if task.Status ≠ "" then [(Column.status, task.Status)] else [])

/-- The `SQLiteDB.UpdateTask` method:
`UPDATE tasks SET ... WHERE id = ? AND user_id = ?`. -/
def UpdateTask (s : Store) (task : Task) : Store × Task × Option Error :=
  let upd := updates task
  if upd.length == 0 then
    (s, task, some (.other "no fields to update"))
  else
    let hit := fun (r : Task) => r.ID == task.ID && r.UserID == task.UserID
    let rowsAffected := (s.tasks.filter hit).length
    let s' := { s with tasks := s.tasks.map (fun r => if hit r then upd.foldl setColumn r else r) }
    if rowsAffected == 0 then
      (s', task, some .ErrTaskNotFound)
    else
      (s', task, none)

/-- The `SQLiteDB.DeleteTask` method:
`DELETE FROM tasks WHERE id = ? AND user_id = ?`. -/
def DeleteTask (s : Store) (id : String) (userID : String) : Store × Option Error :=
  let hit := fun (r : Task) => r.ID == id && r.UserID == userID
  let rowsAffected := (s.tasks.filter hit).length
  let s' := { s with tasks := s.tasks.filter (fun r => !hit r) }
  if rowsAffected == 0 then
    (s', some .ErrTaskNotFound)
  else
    (s', none)

/-- The `SQLiteDB.CreateUser` method: a fresh id, then one `INSERT`.  When
both the email and the id are taken SQLite reports the email. -/
def CreateUser (u : UUID) (s : Store) (user : User) : Store × User × Option Error :=
  let user := { user with ID := u.String }
  if s.users.any (fun r => r.Email == user.Email) then
    (s, user, some (.other "UNIQUE constraint failed: users.email"))
  else if s.users.any (fun r => r.ID == user.ID) then
    (s, user, some (.other "UNIQUE constraint failed: users.id"))
  else
    ({ s with users := s.users ++ [user] }, user, none)

/-- The `SQLiteDB.GetUser` method. -/
def GetUser (s : Store) (id : String) : Except Error User :=
  match s.users.find? (fun r => r.ID == id) with
  | none => .error .ErrUserNotFound
  | some user => .ok user

/-- The `SQLiteDB.ListUsers` method. -/
def ListUsers (s : Store) : Except Error (List User) :=
  .ok s.users

/-- The `SQLiteDB.DeleteUser` method: `DELETE FROM users WHERE id = ?`. -/
def DeleteUser (s : Store) (id : String) : Store × Option Error :=
  let hit := fun (r : User) => r.ID == id
  let rowsAffected := (s.users.filter hit).length
  let s' := { s with users := s.users.filter (fun r => !hit r) }
  if rowsAffected == 0 then
    (s', some .ErrUserNotFound)
  else
    (s', none)

end SQLiteDB

/-- The `SQLiteDB` implementation of the `db.DB` interface. -/
def sqlite : DB Store where
  CreateUser := SQLiteDB.CreateUser
  GetUser := SQLiteDB.GetUser
  ListUsers := SQLiteDB.ListUsers
  DeleteUser := SQLiteDB.DeleteUser
  CreateTask := SQLiteDB.CreateTask
  GetTask := SQLiteDB.GetTask
  ListTasks := SQLiteDB.ListTasks
  UpdateTask := SQLiteDB.UpdateTask
  DeleteTask := SQLiteDB.DeleteTask

/-- The error `database/sql` returns for every statement on a connection
pool that has been closed. -/
def errDBClosed : Error := .other "sql: database is closed"

/-- The `SQLiteDB` methods once `Close` has closed the connection: every
`Exec`, `Query` and `QueryRow` fails with `errDBClosed` and the tables are
not touched.  What the methods do before the statement still happens:
the two creates assign the id, `UpdateTask` refuses an empty patch. -/
def closedSqlite : DB Store where
  CreateUser := fun u s user => (s, { user with ID := u.String }, some errDBClosed)
  GetUser := fun _ _ => .error errDBClosed
  ListUsers := fun _ => .error errDBClosed
  DeleteUser := fun s _ => (s, some errDBClosed)
  CreateTask := fun u s task => (s, { task with ID := u.String }, some errDBClosed)
  GetTask := fun _ _ => .error errDBClosed
  ListTasks := fun _ _ _ => .error errDBClosed
  UpdateTask := fun s task =>
    if (SQLiteDB.updates task).length == 0 then
      (s, task, some (.other "no fields to update"))
    else
      (s, task, some errDBClosed)
  DeleteTask := fun s _ _ => (s, some errDBClosed)

/-! ## internal/service -/

/-- The `service.UserService` record. -/
structure UserService (σ : Type) where
  db : DB σ

/-- The `service.NewUserService` constructor. -/
def NewUserService {σ : Type} (db : DB σ) : UserService σ := ⟨db⟩

namespace UserService

variable {σ : Type}

/-- The `UserService.Create` method. -/
def Create (s : UserService σ) (u : UUID) (st : σ) (user : User) : σ × User × Option Error :=
  s.db.CreateUser u st user

/-- The `UserService.Get` method. -/
def Get (s : UserService σ) (st : σ) (id : String) : Except Error User :=
  s.db.GetUser st id

/-- The `UserService.List` method. -/
def List (s : UserService σ) (st : σ) : Except Error (List User) :=
  s.db.ListUsers st

/-- The `UserService.Delete` method. -/
def Delete (s : UserService σ) (st : σ) (id : String) : σ × Option Error :=
  s.db.DeleteUser st id

end UserService

/-- The `service.TaskService` record: a database and the bound user. -/
structure TaskService (σ : Type) where
  db : DB σ
  userID : String

/-- The `service.NewTaskService` constructor. -/
def NewTaskService {σ : Type} (db : DB σ) (userID : String) : TaskService σ := ⟨db, userID⟩

namespace TaskService

variable {σ : Type}

/-- The `TaskService.Create` method. -/
def Create (s : TaskService σ) (u : UUID) (st : σ) (task : Task) : σ × Task × Option Error :=
  let task := { task with UserID := s.userID }
  s.db.CreateTask u st task

/-- The `TaskService.List` method. -/
def List (s : TaskService σ) (st : σ) (status : String) : Except Error (List Task) :=
  s.db.ListTasks st s.userID status

/-- The `TaskService.Get` method. -/
def Get (s : TaskService σ) (st : σ) (taskID : String) : Except Error Task :=
  match s.db.GetTask st taskID with
  | .error err => .error err
  | .ok task =>
    if task.UserID ≠ s.userID then
      .error .ErrTaskNotFound
    else
      .ok task

/-- The `TaskService.Update` method. -/
def Update (s : TaskService σ) (st : σ) (task : Task) : σ × Task × Option Error :=
  let task := { task with UserID := s.userID }
  s.db.UpdateTask st task

/-- The `TaskService.Delete` method. -/
def Delete (s : TaskService σ) (st : σ) (taskID : String) : σ × Option Error :=
  s.db.DeleteTask st taskID s.userID

end TaskService

/-! ## Go library functions the handlers call -/

/-- The `unicode.IsSpace` predicate: the Latin-1 white space and the
entries of the `White_Space` table above it. -/
def isSpace (r : Char) : Bool :=
  let n := r.toNat
  if n ≤ 0xFF then
    n == 0x09 || n == 0x0A || n == 0x0B || n == 0x0C || n == 0x0D || n == 0x20
      || n == 0x85 || n == 0xA0
  else
    n == 0x1680 || (0x2000 ≤ n && n ≤ 0x200A) || n == 0x2028 || n == 0x2029
      || n == 0x202F || n == 0x205F || n == 0x3000

/-- The `strings.TrimSpace` function: leading and trailing white space
removed. -/
def TrimSpace (s : String) : String :=
  ⟨(s.data.dropWhile isSpace).rdropWhile isSpace⟩

/-- The `utf8.RuneCountInString` function on a valid UTF-8 string: the
number of code points. -/
def RuneCountInString (s : String) : Nat :=
  s.data.length

/-! ### `time.Parse` with the layout `time.RFC3339`

The layout `"2006-01-02T15:04:05Z07:00"` splits into the chunks
`stdLongYear "-" stdZeroMonth "-" stdZeroDay "T" stdHour ":" stdZeroMinute
":" stdZeroSecond stdISO8601ColonTZ`; `parse` handles them one after the
other on the remaining `value` (the standard library's `format.go`, as of
Go 1.20 and later).  The functions work on the list of code points: every
character they accept is ASCII, so the outcome is that of the byte-indexed
original. -/

namespace time

/-- The `isDigit` helper: is `s[i]` in range and a decimal digit. -/
def isDigit (s : List Char) (i : Nat) : Bool :=
  match s.get? i with
  | none => false
  | some c => '0'.toNat ≤ c.toNat && c.toNat ≤ '9'.toNat

/-- The value `s[i] - '0'` of the digit at `i`. -/
def digitAt (s : List Char) (i : Nat) : Nat :=
  (s.getD i '0').toNat - '0'.toNat

/-- The `getnum` helper: a leading number of one or two digits, of
exactly two when `fixed`. -/
def getnum (s : List Char) (fixed : Bool) : Option (Nat × List Char) :=
  if !isDigit s 0 then
    none
  else if !isDigit s 1 then
    if fixed then none else some (digitAt s 0, s.drop 1)
  else
    some (digitAt s 0 * 10 + digitAt s 1, s.drop 2)

/-- The `atoi` helper on the four characters of the year, the first of
which is known to be a digit: all four have to be digits. -/
def atoi4 (p : List Char) : Option Nat :=
  if isDigit p 0 && isDigit p 1 && isDigit p 2 && isDigit p 3 then
    some (digitAt p 0 * 1000 + digitAt p 1 * 100 + digitAt p 2 * 10 + digitAt p 3)
  else
    none

/-- The `skip` helper for a one-character literal of the layout. -/
def skip (value : List Char) (c : Char) : Option (List Char) :=
  match value with
  | [] => none
  | v :: rest => if v == c then some rest else none

/-- The `isLeap` helper. -/
def isLeap (year : Nat) : Bool :=
  year % 4 == 0 && (year % 100 != 0 || year % 400 == 0)

/-- The `daysIn` helper: the length of a month. -/
def daysIn (month year : Nat) : Nat :=
  if month == 2 && isLeap year then 29
  else [0, 31, 28, 31, 30, 31, 30, 31, 31, 30, 31, 30, 31].getD month 0

/-- The `commaOrPeriod` helper. -/
def commaOrPeriod (c : Char) : Bool :=
  c == '.' || c == ','

/-- The fraction special case after `stdZeroSecond`: when the value goes on
with a comma or period and a digit, the run of digits is consumed. -/
def skipFraction (value : List Char) : List Char :=
  match value with
  | c :: rest =>
    if commaOrPeriod c && isDigit rest 0 then rest.dropWhile (fun d => isDigit [d] 0)
    else value
  | [] => value

/-- The `stdISO8601ColonTZ` case: `Z`, or a sign and `hh:mm`; yields the
offset in seconds and the rest of the value. -/
def parseZone (value : List Char) : Option (Int × List Char) :=
  if value.get? 0 == some 'Z' then
    some (0, value.drop 1)
  else if value.length < 6 then
    none
  else if value.get? 3 != some ':' then
    none
  else
    match getnum ((value.drop 1).take 2) true, getnum ((value.drop 4).take 2) true with
    | some (hr, _), some (mm, _) =>
      if hr > 24 then none
      else if mm > 60 then none
      else if value.get? 0 == some '+' then some (((hr * 60 + mm) * 60 : Nat), value.drop 6)
      else if value.get? 0 == some '-' then some (-(((hr * 60 + mm) * 60 : Nat) : Int), value.drop 6)
      else none
    | _, _ => none

/-- The fields `parse` collects. -/
structure Parsed where
  year : Nat
  month : Nat
  day : Nat
  hour : Nat
  min : Nat
  sec : Nat
  zoneOffset : Int
  deriving DecidableEq, Repr

/-- The `time.Parse(time.RFC3339, value)` call, as far as its success and
the fields read go; `none` is a parse error. -/
def parse (value : List Char) : Option Parsed :=
  -- stdLongYear
  if value.length < 4 || !isDigit value 0 then none else
  (atoi4 (value.take 4)).bind fun year =>
  (skip (value.drop 4) '-').bind fun value =>
  -- stdZeroMonth
  (getnum value true).bind fun (month, value) =>
  if month == 0 || 12 < month then none else
  (skip value '-').bind fun value =>
  -- stdZeroDay
  (getnum value true).bind fun (day, value) =>
  (skip value 'T').bind fun value =>
  -- stdHour
  (getnum value false).bind fun (hour, value) =>
  if 24 ≤ hour then none else
  (skip value ':').bind fun value =>
  -- stdZeroMinute
  (getnum value true).bind fun (min, value) =>
  if 60 ≤ min then none else
  (skip value ':').bind fun value =>
  -- stdZeroSecond
  (getnum value true).bind fun (sec, value) =>
  if 60 ≤ sec then none else
  -- stdISO8601ColonTZ
  (parseZone (skipFraction value)).bind fun (zoneOffset, value) =>
  -- end of the layout
  if value.length != 0 then none else
  -- the day of the month is validated last
  if day < 1 || day > daysIn month year then none else
  some ⟨year, month, day, hour, min, sec, zoneOffset⟩

end time

/-! ## github.com/gin-gonic/gin -/

/-- What a handler writes as the JSON body: `gin.H{"error": msg}`, or a
record or slice of records. -/
inductive Payload where
  | error (msg : String)
  | user (u : User)
  | users (l : List User)
  | task (t : Task)
  | tasks (l : List Task)
  deriving DecidableEq, Repr

/-- The part of a `gin.Context` the handlers use: the path parameters, the
query values, what `ShouldBindJSON` yields for the record of type `β` the
handler binds, and the response written so far. -/
structure Context (β : Type) where
  Params : List (String × String)
  QueryValues : List (String × String)
  ShouldBindJSON : Except String β
  status : Nat
  written : List Payload

namespace Context

variable {β : Type}

/-- A context for a request, nothing written yet. -/
def new (params query : List (String × String)) (body : Except String β) : Context β :=
  ⟨params, query, body, 200, []⟩

/-- The `Context.Param` method: the first value under the key, or `""`. -/
def Param (c : Context β) (key : String) : String :=
  match c.Params.find? (fun kv => kv.1 == key) with
  | some kv => kv.2
  | none => ""

/-- The `Context.Query` method: the first value under the key, or `""`. -/
def Query (c : Context β) (key : String) : String :=
  match c.QueryValues.find? (fun kv => kv.1 == key) with
  | some kv => kv.2
  | none => ""

/-- The `Context.Status` method: sets the status code unless the response
has been written already. -/
def Status (c : Context β) (code : Nat) : Context β :=
  if c.written.isEmpty then { c with status := code } else c

/-- The `Context.JSON` method: sets the status code and writes the body. -/
def JSON (c : Context β) (code : Nat) (obj : Payload) : Context β :=
  let c := c.Status code
  { c with written := c.written ++ [obj] }

/-- The response as the client sees it: the status code and the JSON
values written. -/
def response (c : Context β) : Nat × List Payload :=
  (c.status, c.written)

end Context

/-! ## net/http status codes -/

/-- The constant `http.StatusOK`. -/
def StatusOK : Nat := 200
/-- The constant `http.StatusCreated`. -/
def StatusCreated : Nat := 201
/-- The constant `http.StatusBadRequest`. -/
def StatusBadRequest : Nat := 400
/-- The constant `http.StatusNotFound`. -/
def StatusNotFound : Nat := 404
/-- The constant `http.StatusInternalServerError`. -/
def StatusInternalServerError : Nat := 500

/-! ## internal/api/handler.go -/

namespace api

variable {σ β : Type}

/-- The `validStatuses` set. -/
def validStatuses : List String := ["pending", "in_progress", "done"]

/-- The constant `minNameLen`. -/
def minNameLen : Nat := 2
/-- The constant `maxNameLen`. -/
def maxNameLen : Nat := 50
/-- The constant `maxDescLen`. -/
def maxDescLen : Nat := 200

/-- The `isValidStatus` function. -/
def isValidStatus (status : String) : Bool :=
  validStatuses.contains status

/-- The `isValidISO8601` function. -/
def isValidISO8601 (dateStr : String) : Bool :=
  (time.parse dateStr.data).isSome

/-- The `getParam` function. -/
def getParam (c : Context β) (param : String) : Context β × String × Bool :=
  let value := c.Param param
  if value == "" then
    (c.JSON StatusBadRequest (.error (param ++ " is required")), "", false)
  else
    (c, value, true)

/-- The `createUserHandler` handler. -/
def createUserHandler (userService : UserService σ) (u : UUID) (c : Context User) (st : σ) :
    Context User × σ :=
  match c.ShouldBindJSON with
  | .error err => (c.JSON StatusBadRequest (.error err), st)
  | .ok user =>
    let nameLen := RuneCountInString (TrimSpace user.Name)
    if nameLen < minNameLen || nameLen > maxNameLen then
      (c.JSON StatusBadRequest (.error "name must be between 2 and 50 characters"), st)
    else if TrimSpace user.Email == "" then
      (c.JSON StatusBadRequest (.error "email is required"), st)
    else
      match userService.Create u st user with
      | (st, _, some err) => (c.JSON StatusInternalServerError (.error err.Error), st)
      | (st, user, none) => (c.JSON StatusCreated (.user user), st)

/-- The `getUserHandler` handler. -/
def getUserHandler (userService : UserService σ) (c : Context β) (st : σ) : Context β × σ :=
  match getParam c "user_id" with
  | (c, _, false) => (c, st)
  | (c, userID, true) =>
    match userService.Get st userID with
    | .error err => (c.JSON StatusNotFound (.error err.Error), st)
    | .ok user => (c.JSON StatusOK (.user user), st)

/-- The `listUsersHandler` handler. -/
def listUsersHandler (userService : UserService σ) (c : Context β) (st : σ) : Context β × σ :=
  match userService.List st with
  | .error err => (c.JSON StatusInternalServerError (.error err.Error), st)
  | .ok users => (c.JSON StatusOK (.users users), st)

/-- The `deleteUserHandler` handler. -/
def deleteUserHandler (userService : UserService σ) (c : Context β) (st : σ) : Context β × σ :=
  match getParam c "user_id" with
  | (c, _, false) => (c, st)
  | (c, userID, true) =>
    match userService.Delete st userID with
    | (st, some err) => (c.JSON StatusInternalServerError (.error err.Error), st)
    | (st, none) => (c.Status StatusOK, st)

/-- The `taskAction` type. -/
abbrev taskAction (σ β : Type) := Context β → TaskService σ → σ → Context β × σ

/-- The `taskHandler` wrapper. -/
def taskHandler (dbInstance : DB σ) (action : taskAction σ β) (c : Context β) (st : σ) :
    Context β × σ :=
  match getParam c "user_id" with
  | (c, _, false) => (c.JSON StatusBadRequest (.error "user_id is required"), st)
  | (c, userID, true) =>
    let taskService := NewTaskService dbInstance userID
    action c taskService st

/-- The `createTask` action. -/
def createTask (u : UUID) (c : Context Task) (taskService : TaskService σ) (st : σ) :
    Context Task × σ :=
  match c.ShouldBindJSON with
  | .error err => (c.JSON StatusBadRequest (.error err), st)
  | .ok task =>
    let titleLen := RuneCountInString (TrimSpace task.Title)
    if titleLen < minNameLen || titleLen > maxNameLen then
      (c.JSON StatusBadRequest (.error "title must be between 2 and 50 characters"), st)
    else
      let descLen := RuneCountInString (TrimSpace task.Description)
      if descLen > maxDescLen then
        (c.JSON StatusBadRequest (.error "description must be at most 200 characters"), st)
      else if !isValidStatus task.Status then
        (c.JSON StatusBadRequest (.error "invalid status"), st)
      else if !isValidISO8601 task.DueDate then
        (c.JSON StatusBadRequest (.error "due_date must be ISO 8601 format (RFC3339)"), st)
      else
        match taskService.Create u st task with
        | (st, _, some err) => (c.JSON StatusInternalServerError (.error err.Error), st)
        | (st, task, none) => (c.JSON StatusCreated (.task task), st)

/-- The `listTasks` action. -/
def listTasks (c : Context β) (taskService : TaskService σ) (st : σ) : Context β × σ :=
  let status := c.Query "status"
  match taskService.List st status with
  | .error err => (c.JSON StatusInternalServerError (.error err.Error), st)
  | .ok tasks => (c.JSON StatusOK (.tasks tasks), st)

/-- The `getTask` action. -/
def getTask (c : Context β) (taskService : TaskService σ) (st : σ) : Context β × σ :=
  match getParam c "task_id" with
  | (c, _, false) => (c, st)
  | (c, taskID, true) =>
    match taskService.Get st taskID with
    | .error err => (c.JSON StatusNotFound (.error err.Error), st)
    | .ok task => (c.JSON StatusOK (.task task), st)

/-- The `updateTask` action. -/
def updateTask (c : Context Task) (taskService : TaskService σ) (st : σ) : Context Task × σ :=
  match getParam c "task_id" with
  | (c, _, false) => (c, st)
  | (c, taskID, true) =>
    match c.ShouldBindJSON with
    | .error err => (c.JSON StatusBadRequest (.error err), st)
    | .ok task =>
      let titleLen := RuneCountInString (TrimSpace task.Title)
      if titleLen < minNameLen || titleLen > maxNameLen then
        (c.JSON StatusBadRequest (.error "title must be between 2 and 50 characters"), st)
      else
        let descLen := RuneCountInString (TrimSpace task.Description)
        if descLen > maxDescLen then
          (c.JSON StatusBadRequest (.error "description must be at most 200 characters"), st)
        else if !isValidStatus task.Status then
          (c.JSON StatusBadRequest (.error "invalid status"), st)
        else if !isValidISO8601 task.DueDate then
          (c.JSON StatusBadRequest (.error "due_date must be ISO 8601 format (RFC3339)"), st)
        else
          let task := { task with ID := taskID }
          match taskService.Update st task with
          | (st, _, some err) => (c.JSON StatusInternalServerError (.error err.Error), st)
          | (st, task, none) => (c.JSON StatusOK (.task task), st)

/-- The `deleteTask` action. -/
def deleteTask (c : Context β) (taskService : TaskService σ) (st : σ) : Context β × σ :=
  match getParam c "task_id" with
  | (c, _, false) => (c, st)
  | (c, taskID, true) =>
    match taskService.Delete st taskID with
    | (st, some err) => (c.JSON StatusInternalServerError (.error err.Error), st)
    | (st, none) => (c.Status StatusOK, st)

end api

/-! ## The date-time profile, in the words of the specification

A date-time is `YYYY-MM-DDThh:mm:ss`, an optional fraction of the second
and a zone designator, every field a run of decimal digits of fixed width
and in range.  `Profile` collects the points on which a reading of the
format can be more or less strict. -/

/-- A decimal digit. -/
def decimal (c : Char) : Bool :=
  '0'.toNat ≤ c.toNat && c.toNat ≤ '9'.toNat

/-- The number a run of decimal digits denotes. -/
def numeral (l : List Char) : Nat :=
  l.foldl (fun n c => 10 * n + (c.toNat - '0'.toNat)) 0

/-- The characters `l` are exactly `width` decimal digits denoting `n`. -/
def Field (width : Nat) (l : List Char) (n : Nat) : Prop :=
  l.length = width ∧ (∀ c ∈ l, decimal c = true) ∧ numeral l = n

/-- The points a profile fixes: whether the hour may be written with one
digit, whether a comma may introduce the fraction, and the largest hour
and minute of a numeric offset. -/
structure Profile where
  oneDigitHour : Bool
  commaFraction : Bool
  maxOffsetHour : Nat
  maxOffsetMinute : Nat
  deriving DecidableEq, Repr

/-- The strict profile: two-digit hour, a period before the fraction, an
offset of at most `23:59`. -/
def strictProfile : Profile := ⟨false, false, 23, 59⟩

/-- The profile `time.Parse` implements for the layout `time.RFC3339`. -/
def parseProfile : Profile := ⟨true, true, 24, 60⟩

/-- The optional fraction: nothing, or a separator and at least one digit. -/
def FractionForm (p : Profile) (F : List Char) : Prop :=
  F = [] ∨ ∃ sep ds, F = sep :: ds ∧ (sep = '.' ∨ (p.commaFraction = true ∧ sep = ','))
    ∧ ds ≠ [] ∧ ∀ c ∈ ds, decimal c = true

/-- The zone designator: `Z`, or a sign, two digits of hours, a colon and
two digits of minutes. -/
def ZoneForm (p : Profile) (Z : List Char) : Prop :=
  Z = ['Z'] ∨ ∃ sg H M h m, Z = sg :: H ++ ':' :: M ∧ (sg = '+' ∨ sg = '-')
    ∧ Field 2 H h ∧ Field 2 M m ∧ h ≤ p.maxOffsetHour ∧ m ≤ p.maxOffsetMinute

/-- The string `v` is a date-time of the profile `p`. -/
def DateTimeForm (p : Profile) (v : List Char) : Prop :=
  ∃ (Y M D H N S F Z : List Char) (year month day hour min sec : Nat),
    v = Y ++ '-' :: M ++ '-' :: D ++ 'T' :: H ++ ':' :: N ++ ':' :: S ++ F ++ Z
    ∧ Field 4 Y year ∧ Field 2 M month ∧ Field 2 D day
    ∧ (Field 2 H hour ∨ (p.oneDigitHour = true ∧ Field 1 H hour))
    ∧ Field 2 N min ∧ Field 2 S sec
    ∧ FractionForm p F ∧ ZoneForm p Z
    ∧ 1 ≤ month ∧ month ≤ 12 ∧ 1 ≤ day ∧ day ≤ time.daysIn month year
    ∧ hour ≤ 23 ∧ min ≤ 59 ∧ sec ≤ 59

/-! ## The storage contract's partial update -/

/-- The row a successful partial update leaves behind, in the words of the
storage contract: each of the four data fields is the patch's value when
that is non-empty and the old value otherwise; `id` and `user_id` stay. -/
def patched (old p : Task) : Task :=
  { ID := old.ID
    Title := if p.Title ≠ "" then p.Title else old.Title
    Description := if p.Description ≠ "" then p.Description else old.Description
    DueDate := if p.DueDate ≠ "" then p.DueDate else old.DueDate
    Status := if p.Status ≠ "" then p.Status else old.Status
    UserID := old.UserID }

/-! ## Validation as an ordered list of rules

The specification gives the checks of a body as rules in a declared order,
of which the first failing one is reported. -/

/-- A rule: the check, and the message reported when it fails. -/
structure Rule (α : Type) where
  ok : α → Bool
  message : String

/-- The message of the first failing rule, if any rule fails. -/
def firstFailure {α : Type} (rules : List (Rule α)) (x : α) : Option String :=
  (rules.find? (fun r => !r.ok x)).map (·.message)

/-- The length rule of names and titles: 2 to 50 code points once trimmed. -/
def nameLengthOk (s : String) : Bool :=
  2 ≤ RuneCountInString (TrimSpace s) && RuneCountInString (TrimSpace s) ≤ 50

/-- The rules of a task body, in the declared order title, description,
status, due date. -/
def taskRules : List (Rule Task) :=
  [ ⟨fun t => nameLengthOk t.Title, "title must be between 2 and 50 characters"⟩,
    ⟨fun t => RuneCountInString (TrimSpace t.Description) ≤ 200,
      "description must be at most 200 characters"⟩,
    ⟨fun t => api.isValidStatus t.Status, "invalid status"⟩,
    ⟨fun t => api.isValidISO8601 t.DueDate, "due_date must be ISO 8601 format (RFC3339)"⟩ ]

/-- The rules of a user body, in the declared order name, email. -/
def userRules : List (Rule User) :=
  [ ⟨fun u => nameLengthOk u.Name, "name must be between 2 and 50 characters"⟩,
    ⟨fun u => TrimSpace u.Email != "", "email is required"⟩ ]

/-! ## Referential integrity -/

/-- Every stored task's `user_id` names a stored user. -/
def ownersExist (s : Store) : Bool :=
  s.tasks.all (fun t => s.users.any (fun u => u.ID == t.UserID))

/-! ## Concrete data used by the examples -/

/-- A user id. -/
def alice : String := "alice"
/-- Another user id. -/
def bob : String := "bob"

/-- A task of `alice`. -/
def task1 : Task :=
  ⟨"t1", "Test Task", "This is a test task", "2023-12-31T10:00:00Z", "pending", alice⟩

/-- A task of `bob`. -/
def task2 : Task :=
  ⟨"t2", "Other Task", "", "2024-02-29T08:30:00+01:00", "in_progress", bob⟩

/-- A database holding both users and both tasks. -/
def store1 : Store :=
  ⟨[⟨alice, "Alice", "alice@example.com"⟩, ⟨bob, "Bob", "bob@example.com"⟩], [task1, task2]⟩

/-- The all-zero UUID. -/
def uuid0 : UUID := ⟨fun _ => 0⟩

/-- What `ShouldBindJSON` would yield on a request without a body, as GET
and DELETE requests are. -/
def noBody : Except String Unit := .error "EOF"

/-! ## Lemmas on the storage operations -/

section StorageLemmas

open SQLiteDB

theorem uuid_string_length (u : UUID) : u.String.length = 36 := by
  simp [UUID.String, hexByte, String.length]

theorem uuid_string_ne_empty (u : UUID) : u.String ≠ "" := by
  intro h
  have := uuid_string_length u
  rw [h] at this
  simp at this

theorem foldl_setColumn_updates (old p : Task) :
    (updates p).foldl setColumn old = patched old p := by
  unfold updates patched
  by_cases h1 : p.Title = "" <;> by_cases h2 : p.Description = "" <;>
    by_cases h3 : p.DueDate = "" <;> by_cases h4 : p.Status = "" <;>
    simp [h1, h2, h3, h4, setColumn]

theorem updates_eq_nil_iff (p : Task) :
    updates p = [] ↔ p.Title = "" ∧ p.Description = "" ∧ p.DueDate = "" ∧ p.Status = "" := by
  unfold updates
  by_cases h1 : p.Title = "" <;> by_cases h2 : p.Description = "" <;>
    by_cases h3 : p.DueDate = "" <;> by_cases h4 : p.Status = "" <;>
    simp [h1, h2, h3, h4]

/-- Under the primary key, a row is determined by its id. -/
theorem task_eq_of_id_eq {s : Store} (hs : s.WF) {a b : Task}
    (ha : a ∈ s.tasks) (hb : b ∈ s.tasks) (h : a.ID = b.ID) : a = b :=
  List.inj_on_of_nodup_map hs.2.2 ha hb h

theorem filter_eq_nil_of_no_hit {α : Type} (l : List α) (f : α → Bool)
    (h : ∀ r ∈ l, f r = false) : l.filter f = [] := by
  rw [List.filter_eq_nil_iff]
  intro r hr
  simp [h r hr]

theorem filter_not_eq_self_of_no_hit {α : Type} (l : List α) (f : α → Bool)
    (h : ∀ r ∈ l, f r = false) : l.filter (fun r => !f r) = l := by
  rw [List.filter_eq_self]
  intro r hr
  simp [h r hr]

theorem map_ite_eq_self_of_no_hit {α : Type} (l : List α) (f : α → Bool) (g : α → α)
    (h : ∀ r ∈ l, f r = false) : l.map (fun r => if f r then g r else r) = l := by
  induction l with
  | nil => rfl
  | cons a l ih =>
    have ha := h a (List.mem_cons_self a l)
    have hl := ih (fun r hr => h r (List.mem_cons_of_mem a hr))
    simp only [List.map_cons, ha, hl]
    simp

end StorageLemmas

/-! ## C1: ownership isolation -/

section C1
open SQLiteDB

theorem no_hit_of_other_owner {s : Store} (hs : s.WF) {t : Task} (ht : t ∈ s.tasks)
    {B : String} (hB : t.UserID ≠ B) :
    ∀ r ∈ s.tasks, (r.ID == t.ID && r.UserID == B) = false := by
  intro r hr
  by_cases h : r.ID = t.ID
  · have : r = t := task_eq_of_id_eq hs hr ht h
    subst this
    simp [hB]
  · simp [h]

theorem find_task_of_mem {s : Store} (hs : s.WF) {t : Task} (ht : t ∈ s.tasks) :
    s.tasks.find? (fun r => r.ID == t.ID) = some t := by
  cases hfind : s.tasks.find? (fun r => r.ID == t.ID) with
  | none =>
    rw [List.find?_eq_none] at hfind
    exact absurd (by simp) (hfind t ht)
  | some r =>
    have hr := List.mem_of_find?_eq_some hfind
    have hid := List.find?_some hfind
    simp only [beq_iff_eq] at hid
    rw [task_eq_of_id_eq hs hr ht hid]

theorem getTask_of_mem {s : Store} (hs : s.WF) {t : Task} (ht : t ∈ s.tasks) :
    GetTask s t.ID = .ok t := by
  simp [GetTask, find_task_of_mem hs ht]

theorem getTask_of_no_row {s : Store} {id : String} (h : ∀ r ∈ s.tasks, r.ID ≠ id) :
    GetTask s id = .error .ErrTaskNotFound := by
  have : s.tasks.find? (fun r => r.ID == id) = none := by
    rw [List.find?_eq_none]
    intro r hr
    simpa using h r hr
  simp [GetTask, this]

theorem updateTask_of_no_hit {s : Store} {p : Task} (hp : updates p ≠ [])
    (h : ∀ r ∈ s.tasks, (r.ID == p.ID && r.UserID == p.UserID) = false) :
    UpdateTask s p = (s, p, some .ErrTaskNotFound) := by
  have hlen : ((updates p).length == 0) = false := by
    cases hu : updates p with
    | nil => exact absurd hu hp
    | cons a l => simp
  unfold UpdateTask
  simp only [hlen, filter_eq_nil_of_no_hit _ _ h, map_ite_eq_self_of_no_hit _ _ _ h]
  simp

theorem updateTask_of_no_fields {s : Store} {p : Task} (hp : updates p = []) :
    UpdateTask s p = (s, p, some (.other "no fields to update")) := by
  unfold UpdateTask
  simp [hp]

theorem deleteTask_of_no_hit {s : Store} {id userID : String}
    (h : ∀ r ∈ s.tasks, (r.ID == id && r.UserID == userID) = false) :
    DeleteTask s id userID = (s, some .ErrTaskNotFound) := by
  unfold DeleteTask
  simp only [filter_eq_nil_of_no_hit _ _ h, filter_not_eq_self_of_no_hit _ _ h]
  simp

/-- C1 (as amended): in a database satisfying the schema, for a task `t`
owned by `A` and a service bound to another user `B`: `Get(t.ID)` and
`Delete(t.ID)` fail with `ErrTaskNotFound`, `Update` of a record carrying
`t.ID` fails with `ErrTaskNotFound` when at least one of its four data
fields is non-empty and with the "no fields to update" error when all are
empty; each of the three leaves the whole database unchanged; and an id that
matches no task gives the same errors. -/
theorem ownership_isolation (s : Store) (hs : s.WF) (A B : String) (hAB : A ≠ B)
    (t : Task) (ht : t ∈ s.tasks) (hA : t.UserID = A) :
    (NewTaskService sqlite B).Get s t.ID = .error .ErrTaskNotFound
    ∧ (∀ p : Task, p.ID = t.ID →
        ¬ (p.Title = "" ∧ p.Description = "" ∧ p.DueDate = "" ∧ p.Status = "") →
        (NewTaskService sqlite B).Update s p
          = (s, { p with UserID := B }, some .ErrTaskNotFound))
    ∧ (∀ p : Task, p.ID = t.ID →
        (p.Title = "" ∧ p.Description = "" ∧ p.DueDate = "" ∧ p.Status = "") →
        (NewTaskService sqlite B).Update s p
          = (s, { p with UserID := B }, some (.other "no fields to update")))
    ∧ (NewTaskService sqlite B).Delete s t.ID = (s, some .ErrTaskNotFound)
    ∧ (∀ id : String, (∀ r ∈ s.tasks, r.ID ≠ id) →
        (NewTaskService sqlite B).Get s id = .error .ErrTaskNotFound
        ∧ (NewTaskService sqlite B).Delete s id = (s, some .ErrTaskNotFound)
        ∧ ∀ p : Task, p.ID = id →
            ¬ (p.Title = "" ∧ p.Description = "" ∧ p.DueDate = "" ∧ p.Status = "") →
            (NewTaskService sqlite B).Update s p
              = (s, { p with UserID := B }, some .ErrTaskNotFound)) := by
  have hB : t.UserID ≠ B := by rw [hA]; exact hAB
  have hno := no_hit_of_other_owner hs ht hB
  refine ⟨?_, ?_, ?_, ?_, ?_⟩
  · simp [TaskService.Get, NewTaskService, sqlite, getTask_of_mem hs ht, hB]
  · intro p hid hne
    have hu : updates { p with UserID := B } ≠ [] := by
      rw [Ne, updates_eq_nil_iff]; exact hne
    have := updateTask_of_no_hit (s := s) hu (by simpa [hid] using hno)
    simpa [TaskService.Update, NewTaskService, sqlite] using this
  · intro p _ hall
    have hu : updates { p with UserID := B } = [] := by
      rw [updates_eq_nil_iff]; exact hall
    have := updateTask_of_no_fields (s := s) hu
    simpa [TaskService.Update, NewTaskService, sqlite] using this
  · simpa [TaskService.Delete, NewTaskService, sqlite] using deleteTask_of_no_hit hno
  · intro id hid
    have hno2 : ∀ r ∈ s.tasks, (r.ID == id && r.UserID == B) = false := by
      intro r hr; simp [hid r hr]
    refine ⟨?_, ?_, ?_⟩
    · simp [TaskService.Get, NewTaskService, sqlite, getTask_of_no_row hid]
    · simpa [TaskService.Delete, NewTaskService, sqlite] using deleteTask_of_no_hit hno2
    · intro p hpid hne
      have hu : updates { p with UserID := B } ≠ [] := by
        rw [Ne, updates_eq_nil_iff]; exact hne
      have := updateTask_of_no_hit (s := s) hu (by simpa [hpid] using hno2)
      simpa [TaskService.Update, NewTaskService, sqlite] using this

/-- Witness for C1: `task1` of `alice` in `store1`, seen by `bob`. -/
theorem ownership_isolation_witness :
    (NewTaskService sqlite bob).Get store1 task1.ID = .error .ErrTaskNotFound
    ∧ (NewTaskService sqlite bob).Delete store1 task1.ID = (store1, some .ErrTaskNotFound) :=
  have h := ownership_isolation store1 (by decide) alice bob (by decide) task1
    (by decide) rfl
  ⟨h.1, h.2.2.2.1⟩

/-- Counterexample to C1 as stated: `bob` updates `alice`'s task `t1` with
a record that carries the id and no data field; the error is "no fields to
update", not `ErrTaskNotFound`. -/
theorem ownership_isolation_counterexample :
    store1.WF ∧ task1 ∈ store1.tasks ∧ task1.UserID = alice ∧ alice ≠ bob
    ∧ ((NewTaskService sqlite bob).Update store1 ⟨task1.ID, "", "", "", "", ""⟩).2.2
        = some (.other "no fields to update")
    ∧ ((NewTaskService sqlite bob).Update store1 ⟨task1.ID, "", "", "", "", ""⟩).2.2
        ≠ some .ErrTaskNotFound := by
  decide

end C1

/-! ## C2: create/get round trip -/

section C2
open SQLiteDB

/-- C2: when `CreateTask` succeeds, `GetTask` on the id it assigned returns
the task with the title, description, due date, status and user id it was
given, under the newly assigned id, which is the non-empty UUID string; the
record handed back to the caller is that same task. -/
theorem create_get_roundtrip (u : UUID) (s : Store) (t : Task)
    (hok : (CreateTask u s t).2.2 = none) :
    GetTask (CreateTask u s t).1 (CreateTask u s t).2.1.ID
        = .ok ⟨u.String, t.Title, t.Description, t.DueDate, t.Status, t.UserID⟩
    ∧ (CreateTask u s t).2.1 = ⟨u.String, t.Title, t.Description, t.DueDate, t.Status, t.UserID⟩
    ∧ (CreateTask u s t).2.1.ID ≠ ""
    ∧ ∀ r ∈ s.tasks, r.ID ≠ (CreateTask u s t).2.1.ID := by
  unfold CreateTask at hok ⊢
  by_cases hany : s.tasks.any (fun r => r.ID == u.String) = true
  · simp [hany] at hok
  · have hnone : ∀ r ∈ s.tasks, r.ID ≠ u.String := by
      intro r hr h
      exact hany (List.any_eq_true.mpr ⟨r, hr, by simp [h]⟩)
    have hfind : s.tasks.find? (fun r => r.ID == u.String) = none := by
      rw [List.find?_eq_none]
      intro r hr
      simpa using hnone r hr
    simp only [hany]
    refine ⟨?_, rfl, uuid_string_ne_empty u, hnone⟩
    simp [GetTask, List.find?_append, hfind]

/-- Witness for C2: `task2` stored into `store1` under the all-zero UUID. -/
theorem create_get_roundtrip_witness :
    GetTask (CreateTask uuid0 store1 task2).1 "00000000-0000-0000-0000-000000000000"
      = .ok ⟨"00000000-0000-0000-0000-000000000000", "Other Task", "",
              "2024-02-29T08:30:00+01:00", "in_progress", bob⟩ :=
  (create_get_roundtrip uuid0 store1 task2 (by decide)).1

end C2

/-! ## C3: partial update at the storage layer -/

section C3
open SQLiteDB

theorem hit_iff_eq {s : Store} (hs : s.WF) {old : Task} (hold : old ∈ s.tasks) {p : Task}
    (hid : p.ID = old.ID) (hu : p.UserID = old.UserID) :
    ∀ r ∈ s.tasks, (r.ID == p.ID && r.UserID == p.UserID) = decide (r.ID = old.ID) := by
  intro r hr
  by_cases h : r.ID = old.ID
  · have : r = old := task_eq_of_id_eq hs hr hold h
    subst this
    simp [hid, hu]
  · simp [h, hid]

theorem updateTask_of_hit (s : Store) (hs : s.WF) (old : Task) (hold : old ∈ s.tasks) (p : Task)
    (hid : p.ID = old.ID) (hu : p.UserID = old.UserID)
    (hne : p.Title ≠ "" ∨ p.Description ≠ "" ∨ p.DueDate ≠ "" ∨ p.Status ≠ "") :
    UpdateTask s p
      = (⟨s.users, s.tasks.map (fun r => if r.ID = old.ID then patched old p else r)⟩,
          p, none) := by
  have hupd : updates p ≠ [] := by
    rw [Ne, updates_eq_nil_iff]
    rintro ⟨h1, h2, h3, h4⟩
    rcases hne with h | h | h | h <;> contradiction
  have hlen : ((updates p).length == 0) = false := by
    cases hu' : updates p with
    | nil => exact absurd hu' hupd
    | cons a l => simp
  have hhit := hit_iff_eq hs hold hid hu
  have hmap : s.tasks.map (fun r => if (r.ID == p.ID && r.UserID == p.UserID) = true
        then (updates p).foldl setColumn r else r)
      = s.tasks.map (fun r => if r.ID = old.ID then patched old p else r) := by
    apply List.map_congr_left
    intro r hr
    rw [hhit r hr]
    by_cases h : r.ID = old.ID
    · have : r = old := task_eq_of_id_eq hs hr hold h
      subst this
      simp [foldl_setColumn_updates]
    · simp [h]
  have hfilter : (s.tasks.filter (fun r => r.ID == p.ID && r.UserID == p.UserID)).length ≠ 0 := by
    rw [Ne, List.length_eq_zero, List.filter_eq_nil_iff]
    intro h
    exact h old hold (by simp [hid, hu])
  unfold UpdateTask
  simp only [hlen, hmap]
  simp [hfilter]

theorem wf_of_patched (s : Store) (hs : s.WF) (old p : Task) :
    Store.WF ⟨s.users, s.tasks.map (fun r => if r.ID = old.ID then patched old p else r)⟩ := by
  have hids : (s.tasks.map (fun r => if r.ID = old.ID then patched old p else r)).map (·.ID)
      = s.tasks.map (·.ID) := by
    rw [List.map_map]
    apply List.map_congr_left
    intro r _
    by_cases h : r.ID = old.ID <;> simp [h, patched]
  refine ⟨hs.1, hs.2.1, ?_⟩
  show ((s.tasks.map (fun r => if r.ID = old.ID then patched old p else r)).map (·.ID)).Nodup
  rw [hids]
  exact hs.2.2

theorem getTask_of_patched (s : Store) (hs : s.WF) (old : Task) (hold : old ∈ s.tasks)
    (p : Task) :
    GetTask ⟨s.users, s.tasks.map (fun r => if r.ID = old.ID then patched old p else r)⟩ old.ID
      = .ok (patched old p) := by
  have hmem : patched old p ∈ s.tasks.map (fun r => if r.ID = old.ID then patched old p else r) :=
    List.mem_map.mpr ⟨old, hold, by simp⟩
  have := getTask_of_mem (wf_of_patched s hs old p) (t := patched old p) hmem
  simpa [patched] using this

/-- C3: in a database satisfying the schema, for a stored row `old` and a
patch `p` with the same id and user id and at least one non-empty data
field, `UpdateTask` succeeds, leaves the caller's record and the users
table alone, and the tasks table afterwards is the old one with the row of
that id replaced by `patched old p` (the patch's value for each non-empty
field, the old value otherwise, id and user id kept) and every other row
as it was; `GetTask` then returns the patched row.  A patch carrying only
status "done" changes the status to "done" and nothing else. -/
theorem partial_update (s : Store) (hs : s.WF) (old : Task) (hold : old ∈ s.tasks) (p : Task)
    (hid : p.ID = old.ID) (hu : p.UserID = old.UserID)
    (hne : p.Title ≠ "" ∨ p.Description ≠ "" ∨ p.DueDate ≠ "" ∨ p.Status ≠ "") :
    (UpdateTask s p).2 = (p, none)
    ∧ (UpdateTask s p).1.users = s.users
    ∧ (UpdateTask s p).1.tasks
        = s.tasks.map (fun r => if r.ID = old.ID then patched old p else r)
    ∧ (∀ r ∈ s.tasks, r.ID ≠ old.ID → r ∈ (UpdateTask s p).1.tasks)
    ∧ GetTask (UpdateTask s p).1 old.ID = .ok (patched old p)
    ∧ (UpdateTask s p).1.WF
    ∧ (p.Title = "" → p.Description = "" → p.DueDate = "" → p.Status = "done" →
        patched old p = { old with Status := "done" }) := by
  rw [updateTask_of_hit s hs old hold p hid hu hne]
  refine ⟨rfl, rfl, rfl, ?_, getTask_of_patched s hs old hold p, wf_of_patched s hs old p, ?_⟩
  · intro r hr hne'
    exact List.mem_map.mpr ⟨r, hr, by simp [hne']⟩
  · intro h1 h2 h3 h4
    simp [patched, h1, h2, h3, h4]

/-- Witness for C3: the patch `{status: "done"}` on `task1` in `store1`. -/
theorem partial_update_witness :
    GetTask (UpdateTask store1 ⟨"t1", "", "", "", "done", alice⟩).1 "t1"
      = .ok ⟨"t1", "Test Task", "This is a test task", "2023-12-31T10:00:00Z", "done", alice⟩ :=
  (partial_update store1 (by decide) task1 (by decide) ⟨"t1", "", "", "", "done", alice⟩
    rfl rfl (by decide)).2.2.2.2.1

end C3

/-! ## C9: deleting what is not there -/

section C9
open SQLiteDB

theorem deleteUser_of_no_row {s : Store} {id : String} (h : ∀ r ∈ s.users, r.ID ≠ id) :
    DeleteUser s id = (s, some .ErrUserNotFound) := by
  have hno : ∀ r ∈ s.users, (r.ID == id) = false := by
    intro r hr; simpa using h r hr
  unfold DeleteUser
  simp only [filter_eq_nil_of_no_hit _ _ hno, filter_not_eq_self_of_no_hit _ _ hno]
  simp

theorem deleteUser_fst (s : Store) (id : String) :
    (DeleteUser s id).1 = ⟨s.users.filter (fun r => !(r.ID == id)), s.tasks⟩ := by
  unfold DeleteUser
  dsimp only
  split <;> rfl

theorem deleteTask_fst (s : Store) (id userID : String) :
    (DeleteTask s id userID).1
      = ⟨s.users, s.tasks.filter (fun r => !(r.ID == id && r.UserID == userID))⟩ := by
  unfold DeleteTask
  dsimp only
  split <;> rfl

theorem no_user_after_delete (s : Store) (id : String) :
    ∀ r ∈ (DeleteUser s id).1.users, r.ID ≠ id := by
  intro r hr
  rw [deleteUser_fst] at hr
  simpa using (List.mem_filter.mp hr).2

theorem no_task_after_delete (s : Store) (id userID : String) :
    ∀ r ∈ (DeleteTask s id userID).1.tasks, (r.ID == id && r.UserID == userID) = false := by
  intro r hr
  rw [deleteTask_fst] at hr
  have := (List.mem_filter.mp hr).2
  cases h : (r.ID == id && r.UserID == userID) with
  | false => rfl
  | true => simp [h] at this

/-- C9: `DeleteUser(id)` with no user row of that id returns
`ErrUserNotFound` and `DeleteTask(id, userID)` with no task row matching
both returns `ErrTaskNotFound`, the database being left as it was; so the
same delete repeated any number of times fails every time; and a delete
issued right after a delete of the same user or task fails, whatever the
first one did. -/
theorem delete_missing_fails (s : Store) :
    (∀ id : String, (∀ r ∈ s.users, r.ID ≠ id) →
        DeleteUser s id = (s, some .ErrUserNotFound))
    ∧ (∀ id userID : String, (∀ r ∈ s.tasks, ¬ (r.ID = id ∧ r.UserID = userID)) →
        DeleteTask s id userID = (s, some .ErrTaskNotFound))
    ∧ (∀ (id : String) (n : Nat), (∀ r ∈ s.users, r.ID ≠ id) →
        DeleteUser ((fun st => (DeleteUser st id).1)^[n] s) id = (s, some .ErrUserNotFound))
    ∧ (∀ (id userID : String) (n : Nat), (∀ r ∈ s.tasks, ¬ (r.ID = id ∧ r.UserID = userID)) →
        DeleteTask ((fun st => (DeleteTask st id userID).1)^[n] s) id userID
          = (s, some .ErrTaskNotFound))
    ∧ (∀ id : String, DeleteUser (DeleteUser s id).1 id
        = ((DeleteUser s id).1, some .ErrUserNotFound))
    ∧ (∀ id userID : String, DeleteTask (DeleteTask s id userID).1 id userID
        = ((DeleteTask s id userID).1, some .ErrTaskNotFound)) := by
  have htask : ∀ (st : Store) (id userID : String),
      (∀ r ∈ st.tasks, ¬ (r.ID = id ∧ r.UserID = userID)) →
      DeleteTask st id userID = (st, some .ErrTaskNotFound) := by
    intro st id userID h
    apply deleteTask_of_no_hit
    intro r hr
    simpa using h r hr
  refine ⟨fun id h => deleteUser_of_no_row h, htask s, ?_, ?_, ?_, ?_⟩
  · intro id n h
    have hit : (fun st => (DeleteUser st id).1)^[n] s = s := by
      induction n with
      | zero => rfl
      | succ n ih => rw [Function.iterate_succ_apply', ih, deleteUser_of_no_row h]
    rw [hit, deleteUser_of_no_row h]
  · intro id userID n h
    have hit : (fun st => (DeleteTask st id userID).1)^[n] s = s := by
      induction n with
      | zero => rfl
      | succ n ih => rw [Function.iterate_succ_apply', ih, htask s id userID h]
    rw [hit, htask s id userID h]
  · intro id
    exact deleteUser_of_no_row (no_user_after_delete s id)
  · intro id userID
    exact deleteTask_of_no_hit (no_task_after_delete s id userID)

end C9

/-! ## Lemmas on the request handlers -/

section HandlerLemmas
open api

variable {σ β : Type}

theorem response_JSON (c : Context β) (hc : c.written = []) (code : Nat) (obj : Payload) :
    (c.JSON code obj).response = (code, [obj]) := by
  simp [Context.JSON, Context.Status, Context.response, hc]

theorem response_Status (c : Context β) (hc : c.written = []) (code : Nat) :
    (c.Status code).response = (code, []) := by
  simp [Context.Status, Context.response, hc]

theorem getParam_of_ne (c : Context β) (k : String) (h : c.Param k ≠ "") :
    getParam c k = (c, c.Param k, true) := by
  simp [getParam, h]

theorem taskHandler_of_ne (d : DB σ) (action : taskAction σ β) (c : Context β) (st : σ)
    (h : c.Param "user_id" ≠ "") :
    taskHandler d action c st = action c (NewTaskService d (c.Param "user_id")) st := by
  simp [taskHandler, getParam_of_ne c "user_id" h]

/-- The length test shared by the name and the title. -/
theorem lenBad_iff (s : String) :
    (decide (RuneCountInString (TrimSpace s) < minNameLen)
        || decide (RuneCountInString (TrimSpace s) > maxNameLen)) = true
      ↔ (RuneCountInString (TrimSpace s) < 2 ∨ 50 < RuneCountInString (TrimSpace s)) := by
  simp [minNameLen, maxNameLen]

end HandlerLemmas

/-! ## C5: the name/title length rule -/

section C5
open api

variable {σ : Type}

theorem createUserHandler_name (d : DB σ) (u : UUID) (c : Context User) (st : σ) (user : User)
    (hc : c.written = []) (hb : c.ShouldBindJSON = .ok user) :
    (createUserHandler (NewUserService d) u c st).1.response
        = (400, [.error "name must be between 2 and 50 characters"])
      ↔ (RuneCountInString (TrimSpace user.Name) < 2
          ∨ 50 < RuneCountInString (TrimSpace user.Name)) := by
  unfold createUserHandler
  rw [hb]
  dsimp only
  by_cases hbad : (decide (RuneCountInString (TrimSpace user.Name) < minNameLen)
        || decide (RuneCountInString (TrimSpace user.Name) > maxNameLen)) = true
  · rw [if_pos hbad]
    simp only [response_JSON c hc, StatusBadRequest, true_iff]
    exact (lenBad_iff _).mp hbad
  · rw [if_neg hbad]
    have hgood := mt (lenBad_iff _).mpr hbad
    simp only [hgood, iff_false]
    split
    · simp [response_JSON c hc, StatusBadRequest]
    · split
      · simp [response_JSON c hc, StatusInternalServerError]
      · simp [response_JSON c hc, StatusCreated]

theorem createTask_title (u : UUID) (c : Context Task) (ts : TaskService σ) (st : σ)
    (task : Task) (hc : c.written = []) (hb : c.ShouldBindJSON = .ok task) :
    (createTask u c ts st).1.response
        = (400, [.error "title must be between 2 and 50 characters"])
      ↔ (RuneCountInString (TrimSpace task.Title) < 2
          ∨ 50 < RuneCountInString (TrimSpace task.Title)) := by
  unfold createTask
  rw [hb]
  dsimp only
  by_cases hbad : (decide (RuneCountInString (TrimSpace task.Title) < minNameLen)
        || decide (RuneCountInString (TrimSpace task.Title) > maxNameLen)) = true
  · rw [if_pos hbad]
    simp only [response_JSON c hc, StatusBadRequest, true_iff]
    exact (lenBad_iff _).mp hbad
  · rw [if_neg hbad]
    have hgood := mt (lenBad_iff _).mpr hbad
    simp only [hgood, iff_false]
    split
    · simp [response_JSON c hc, StatusBadRequest]
    · split
      · simp [response_JSON c hc, StatusBadRequest]
      · split
        · simp [response_JSON c hc, StatusBadRequest]
        · split
          · simp [response_JSON c hc, StatusInternalServerError]
          · simp [response_JSON c hc, StatusCreated]

theorem updateTask_title (c : Context Task) (ts : TaskService σ) (st : σ)
    (task : Task) (hc : c.written = []) (hb : c.ShouldBindJSON = .ok task)
    (ht : c.Param "task_id" ≠ "") :
    (updateTask c ts st).1.response
        = (400, [.error "title must be between 2 and 50 characters"])
      ↔ (RuneCountInString (TrimSpace task.Title) < 2
          ∨ 50 < RuneCountInString (TrimSpace task.Title)) := by
  unfold updateTask
  rw [getParam_of_ne c "task_id" ht]
  dsimp only
  rw [hb]
  dsimp only
  by_cases hbad : (decide (RuneCountInString (TrimSpace task.Title) < minNameLen)
        || decide (RuneCountInString (TrimSpace task.Title) > maxNameLen)) = true
  · rw [if_pos hbad]
    simp only [response_JSON c hc, StatusBadRequest, true_iff]
    exact (lenBad_iff _).mp hbad
  · rw [if_neg hbad]
    have hgood := mt (lenBad_iff _).mpr hbad
    simp only [hgood, iff_false]
    split
    · simp [response_JSON c hc, StatusBadRequest]
    · split
      · simp [response_JSON c hc, StatusBadRequest]
      · split
        · simp [response_JSON c hc, StatusBadRequest]
        · split
          · simp [response_JSON c hc, StatusInternalServerError]
          · simp [response_JSON c hc, StatusOK]

/-- C5: on any database, for every request whose body binds: the
create-user handler (`POST /users`) answers 400 with "name must be between
2 and 50 characters", the create-task handler (any request with a
`user_id`) and the update-task handler (any request with a `user_id` and a
`task_id`) answer 400 with "title must be between 2 and 50 characters",
exactly when the name (title), with surrounding white space trimmed, has
fewer than 2 or more than 50 code points.  The count is of code points: a
name of 50 two-byte characters (100 bytes) counts 50, one of 51 ASCII
letters counts 51. -/
theorem name_title_length_rule (d : DB σ) (u : UUID) (st : σ) :
    (∀ (c : Context User) (user : User), c.written = [] → c.ShouldBindJSON = .ok user →
        ((createUserHandler (NewUserService d) u c st).1.response
            = (400, [.error "name must be between 2 and 50 characters"])
          ↔ (RuneCountInString (TrimSpace user.Name) < 2
              ∨ 50 < RuneCountInString (TrimSpace user.Name))))
    ∧ (∀ (c : Context Task) (task : Task), c.written = [] → c.ShouldBindJSON = .ok task →
        c.Param "user_id" ≠ "" →
        ((taskHandler d (createTask u) c st).1.response
            = (400, [.error "title must be between 2 and 50 characters"])
          ↔ (RuneCountInString (TrimSpace task.Title) < 2
              ∨ 50 < RuneCountInString (TrimSpace task.Title))))
    ∧ (∀ (c : Context Task) (task : Task), c.written = [] → c.ShouldBindJSON = .ok task →
        c.Param "user_id" ≠ "" → c.Param "task_id" ≠ "" →
        ((taskHandler d updateTask c st).1.response
            = (400, [.error "title must be between 2 and 50 characters"])
          ↔ (RuneCountInString (TrimSpace task.Title) < 2
              ∨ 50 < RuneCountInString (TrimSpace task.Title))))
    ∧ (String.mk (List.replicate 50 'é')).utf8ByteSize = 100
    ∧ RuneCountInString (TrimSpace (String.mk (List.replicate 50 'é'))) = 50
    ∧ RuneCountInString (TrimSpace (String.mk (List.replicate 51 'a'))) = 51 := by
  refine ⟨?_, ?_, ?_, by decide, by decide, by decide⟩
  · intro c user hc hb
    exact createUserHandler_name d u c st user hc hb
  · intro c task hc hb huid
    rw [taskHandler_of_ne d (createTask u) c st huid]
    exact createTask_title u c _ st task hc hb
  · intro c task hc hb huid htid
    rw [taskHandler_of_ne d updateTask c st huid]
    exact updateTask_title c _ st task hc hb htid

/-- Witness for C5: on `store1`, a name and title of 51 ASCII letters is
refused by `POST /users`, by `POST /users/alice/tasks` and by
`PUT /users/alice/tasks/t1`. -/
theorem name_title_length_rule_witness :
    (createUserHandler (NewUserService sqlite) uuid0
        (Context.new [] [] (.ok ⟨"", String.mk (List.replicate 51 'a'), "a@example.com"⟩))
        store1).1.response
      = (400, [.error "name must be between 2 and 50 characters"])
    ∧ (taskHandler sqlite (createTask uuid0)
        (Context.new [("user_id", alice)] []
          (.ok ⟨"", String.mk (List.replicate 51 'a'), "", "2025-12-31T10:00:00Z", "done", ""⟩))
        store1).1.response
      = (400, [.error "title must be between 2 and 50 characters"])
    ∧ (taskHandler sqlite updateTask
        (Context.new [("user_id", alice), ("task_id", "t1")] []
          (.ok ⟨"", String.mk (List.replicate 51 'a'), "", "2025-12-31T10:00:00Z", "done", ""⟩))
        store1).1.response
      = (400, [.error "title must be between 2 and 50 characters"]) :=
  have h := name_title_length_rule sqlite uuid0 store1
  ⟨(h.1 (Context.new [] [] (.ok ⟨"", String.mk (List.replicate 51 'a'), "a@example.com"⟩))
      ⟨"", String.mk (List.replicate 51 'a'), "a@example.com"⟩ rfl rfl).mpr (by decide),
   (h.2.1 (Context.new [("user_id", alice)] []
      (.ok ⟨"", String.mk (List.replicate 51 'a'), "", "2025-12-31T10:00:00Z", "done", ""⟩))
      ⟨"", String.mk (List.replicate 51 'a'), "", "2025-12-31T10:00:00Z", "done", ""⟩
      rfl rfl (by decide)).mpr (by decide),
   (h.2.2.1 (Context.new [("user_id", alice), ("task_id", "t1")] []
      (.ok ⟨"", String.mk (List.replicate 51 'a'), "", "2025-12-31T10:00:00Z", "done", ""⟩))
      ⟨"", String.mk (List.replicate 51 'a'), "", "2025-12-31T10:00:00Z", "done", ""⟩
      rfl rfl (by decide) (by decide)).mpr (by decide)⟩

end C5

/-! ## C6: the description length rule -/

section C6
open api

variable {σ : Type}

theorem titleOk_not_bad {s : String}
    (h : 2 ≤ RuneCountInString (TrimSpace s) ∧ RuneCountInString (TrimSpace s) ≤ 50) :
    ¬ ((decide (RuneCountInString (TrimSpace s) < minNameLen)
        || decide (RuneCountInString (TrimSpace s) > maxNameLen)) = true) := by
  rw [lenBad_iff]
  omega

/-- C6: for a create-task request whose body binds, whose `user_id` is
present and whose title passes the length check, on any database, the
answer is 400 with "description must be at most 200 characters" exactly
when the description, with surrounding white space trimmed, has more than
200 code points; in particular the empty description passes. -/
theorem description_length_rule (d : DB σ) (u : UUID) (st : σ) (c : Context Task) (task : Task)
    (hc : c.written = []) (hb : c.ShouldBindJSON = .ok task) (huid : c.Param "user_id" ≠ "")
    (htitle : 2 ≤ RuneCountInString (TrimSpace task.Title)
      ∧ RuneCountInString (TrimSpace task.Title) ≤ 50) :
    ((taskHandler d (createTask u) c st).1.response
          = (400, [.error "description must be at most 200 characters"])
        ↔ 200 < RuneCountInString (TrimSpace task.Description))
    ∧ RuneCountInString (TrimSpace "") = 0 := by
  refine ⟨?_, by decide⟩
  rw [taskHandler_of_ne d (createTask u) c st huid]
  unfold createTask
  rw [hb]
  dsimp only
  rw [if_neg (titleOk_not_bad htitle)]
  by_cases hd : 200 < RuneCountInString (TrimSpace task.Description)
  · have : RuneCountInString (TrimSpace task.Description) > maxDescLen := hd
    rw [if_pos this]
    simp [response_JSON c hc, StatusBadRequest, hd]
  · have : ¬ RuneCountInString (TrimSpace task.Description) > maxDescLen := hd
    rw [if_neg this]
    simp only [hd, iff_false]
    split
    · simp [response_JSON c hc, StatusBadRequest]
    · split
      · simp [response_JSON c hc, StatusBadRequest]
      · split
        · simp [response_JSON c hc, StatusInternalServerError]
        · simp [response_JSON c hc, StatusCreated]

set_option maxRecDepth 8000 in
/-- Witness for C6: a description of 201 letters under a good title. -/
theorem description_length_rule_witness :
    (taskHandler sqlite (createTask uuid0)
        (Context.new [("user_id", alice)] []
          (.ok ⟨"", "Test Task", String.mk (List.replicate 201 'a'), "2025-12-31T10:00:00Z",
                "pending", ""⟩))
        store1).1.response
      = (400, [.error "description must be at most 200 characters"]) :=
  (description_length_rule sqlite uuid0 store1
    (Context.new [("user_id", alice)] []
      (.ok ⟨"", "Test Task", String.mk (List.replicate 201 'a'), "2025-12-31T10:00:00Z",
            "pending", ""⟩))
    ⟨"", "Test Task", String.mk (List.replicate 201 'a'), "2025-12-31T10:00:00Z", "pending", ""⟩
    rfl rfl (by decide) (by decide)).1.mpr (by decide)

end C6

/-! ## C7: the status rule -/

section C7
open api

variable {σ : Type}

theorem isValidStatus_iff (s : String) :
    isValidStatus s = true ↔ (s = "pending" ∨ s = "in_progress" ∨ s = "done") := by
  simp [isValidStatus, validStatuses]

theorem descOk_not_bad {s : String} (h : RuneCountInString (TrimSpace s) ≤ 200) :
    ¬ RuneCountInString (TrimSpace s) > maxDescLen := by
  simpa [maxDescLen] using h

/-- C7: `isValidStatus s` holds exactly when `s` is one of "pending",
"in_progress", "done" (the empty string, a padded and a capitalised
spelling are refused); and on any database, for every request whose body
binds, whose title and description pass their checks and whose status is
outside the three: `createTask` (any request with a `user_id`) and
`updateTask` (any request with a `user_id` and a `task_id`) answer 400
with "invalid status" and leave the state alone. -/
theorem status_rule (d : DB σ) (u : UUID) (st : σ) :
    (∀ s : String, isValidStatus s = true ↔ (s = "pending" ∨ s = "in_progress" ∨ s = "done"))
    ∧ isValidStatus "" = false ∧ isValidStatus " done" = false ∧ isValidStatus "Done" = false
    ∧ (∀ (c : Context Task) (task : Task), c.written = [] → c.ShouldBindJSON = .ok task →
        c.Param "user_id" ≠ "" →
        (2 ≤ RuneCountInString (TrimSpace task.Title)
          ∧ RuneCountInString (TrimSpace task.Title) ≤ 50) →
        RuneCountInString (TrimSpace task.Description) ≤ 200 →
        ¬ (task.Status = "pending" ∨ task.Status = "in_progress" ∨ task.Status = "done") →
        (taskHandler d (createTask u) c st).1.response = (400, [.error "invalid status"])
        ∧ (taskHandler d (createTask u) c st).2 = st)
    ∧ (∀ (c : Context Task) (task : Task), c.written = [] → c.ShouldBindJSON = .ok task →
        c.Param "user_id" ≠ "" → c.Param "task_id" ≠ "" →
        (2 ≤ RuneCountInString (TrimSpace task.Title)
          ∧ RuneCountInString (TrimSpace task.Title) ≤ 50) →
        RuneCountInString (TrimSpace task.Description) ≤ 200 →
        ¬ (task.Status = "pending" ∨ task.Status = "in_progress" ∨ task.Status = "done") →
        (taskHandler d updateTask c st).1.response = (400, [.error "invalid status"])
        ∧ (taskHandler d updateTask c st).2 = st) := by
  have hinv : ∀ task : Task,
      ¬ (task.Status = "pending" ∨ task.Status = "in_progress" ∨ task.Status = "done") →
      (!isValidStatus task.Status) = true := by
    intro task hstatus
    have := mt (isValidStatus_iff task.Status).mp hstatus
    simpa using this
  refine ⟨isValidStatus_iff, by decide, by decide, by decide, ?_, ?_⟩
  · intro c task hc hb huid htitle hdesc hstatus
    have hcreate : taskHandler d (createTask u) c st
        = (c.JSON StatusBadRequest (.error "invalid status"), st) := by
      rw [taskHandler_of_ne d (createTask u) c st huid]
      unfold createTask
      rw [hb]
      dsimp only
      rw [if_neg (titleOk_not_bad htitle), if_neg (descOk_not_bad hdesc),
        if_pos (hinv task hstatus)]
    rw [hcreate]
    exact ⟨response_JSON c hc _ _, rfl⟩
  · intro c task hc hb huid htid htitle hdesc hstatus
    have hupdate : taskHandler d updateTask c st
        = (c.JSON StatusBadRequest (.error "invalid status"), st) := by
      rw [taskHandler_of_ne d updateTask c st huid]
      unfold updateTask
      rw [getParam_of_ne c "task_id" htid]
      dsimp only
      rw [hb]
      dsimp only
      rw [if_neg (titleOk_not_bad htitle), if_neg (descOk_not_bad hdesc),
        if_pos (hinv task hstatus)]
    rw [hupdate]
    exact ⟨response_JSON c hc _ _, rfl⟩

/-- Witness for C7: the statuses "invalid_status" and "bad_status" of the
test suite, on `POST /users/alice/tasks` and `PUT /users/alice/tasks/t1`. -/
theorem status_rule_witness :
    (taskHandler sqlite (createTask uuid0)
        (Context.new [("user_id", alice)] []
          (.ok ⟨"", "Test Task", "desc", "2025-12-31T10:00:00Z", "invalid_status", ""⟩))
        store1).1.response
      = (400, [.error "invalid status"])
    ∧ (taskHandler sqlite updateTask
        (Context.new [("user_id", alice), ("task_id", "t1")] []
          (.ok ⟨"", "Updated Task", "desc", "2025-12-31T10:00:00Z", "bad_status", ""⟩))
        store1).1.response
      = (400, [.error "invalid status"]) :=
  have h := status_rule sqlite uuid0 store1
  ⟨(h.2.2.2.2.1 (Context.new [("user_id", alice)] []
      (.ok ⟨"", "Test Task", "desc", "2025-12-31T10:00:00Z", "invalid_status", ""⟩))
      ⟨"", "Test Task", "desc", "2025-12-31T10:00:00Z", "invalid_status", ""⟩
      rfl rfl (by decide) (by decide) (by decide) (by decide)).1,
   (h.2.2.2.2.2 (Context.new [("user_id", alice), ("task_id", "t1")] []
      (.ok ⟨"", "Updated Task", "desc", "2025-12-31T10:00:00Z", "bad_status", ""⟩))
      ⟨"", "Updated Task", "desc", "2025-12-31T10:00:00Z", "bad_status", ""⟩
      rfl rfl (by decide) (by decide) (by decide) (by decide) (by decide)).1⟩

end C7

/-! ## How the handlers answer a failing or succeeding service call -/

section HandlerResults
open api

variable {σ β : Type}

theorem getUserHandler_error (d : DB σ) (c : Context β) (st : σ) (e : Error)
    (huid : c.Param "user_id" ≠ "")
    (h : (NewUserService d).Get st (c.Param "user_id") = .error e) :
    getUserHandler (NewUserService d) c st = (c.JSON StatusNotFound (.error e.Error), st) := by
  unfold getUserHandler
  rw [getParam_of_ne c "user_id" huid]
  dsimp only
  rw [h]

theorem deleteUserHandler_error (d : DB σ) (c : Context β) (st st' : σ) (e : Error)
    (huid : c.Param "user_id" ≠ "")
    (h : (NewUserService d).Delete st (c.Param "user_id") = (st', some e)) :
    deleteUserHandler (NewUserService d) c st
      = (c.JSON StatusInternalServerError (.error e.Error), st') := by
  unfold deleteUserHandler
  rw [getParam_of_ne c "user_id" huid]
  dsimp only
  rw [h]

theorem getTask_error (c : Context β) (ts : TaskService σ) (st : σ) (e : Error)
    (htid : c.Param "task_id" ≠ "") (h : ts.Get st (c.Param "task_id") = .error e) :
    getTask c ts st = (c.JSON StatusNotFound (.error e.Error), st) := by
  unfold getTask
  rw [getParam_of_ne c "task_id" htid]
  dsimp only
  rw [h]

theorem deleteTask_error (c : Context β) (ts : TaskService σ) (st st' : σ) (e : Error)
    (htid : c.Param "task_id" ≠ "") (h : ts.Delete st (c.Param "task_id") = (st', some e)) :
    deleteTask c ts st = (c.JSON StatusInternalServerError (.error e.Error), st') := by
  unfold deleteTask
  rw [getParam_of_ne c "task_id" htid]
  dsimp only
  rw [h]

/-- What `updateTask` does once the path parameter is there and the body
has passed the four checks: it calls `Update` with the path's task id. -/
theorem updateTask_valid (c : Context Task) (ts : TaskService σ) (st : σ) (task : Task)
    (hb : c.ShouldBindJSON = .ok task) (htid : c.Param "task_id" ≠ "")
    (htitle : 2 ≤ RuneCountInString (TrimSpace task.Title)
      ∧ RuneCountInString (TrimSpace task.Title) ≤ 50)
    (hdesc : RuneCountInString (TrimSpace task.Description) ≤ 200)
    (hstatus : isValidStatus task.Status = true)
    (hdate : isValidISO8601 task.DueDate = true) :
    updateTask c ts st =
      match ts.Update st { task with ID := c.Param "task_id" } with
      | (st, _, some err) => (c.JSON StatusInternalServerError (.error err.Error), st)
      | (st, task, none) => (c.JSON StatusOK (.task task), st) := by
  unfold updateTask
  rw [getParam_of_ne c "task_id" htid]
  dsimp only
  rw [hb]
  dsimp only
  rw [if_neg (titleOk_not_bad htitle), if_neg (descOk_not_bad hdesc)]
  simp only [hstatus, hdate, Bool.not_true, Bool.false_eq_true, if_false]

theorem updateTask_error (c : Context Task) (ts : TaskService σ) (st st' : σ) (task t' : Task)
    (e : Error)
    (hb : c.ShouldBindJSON = .ok task) (htid : c.Param "task_id" ≠ "")
    (htitle : 2 ≤ RuneCountInString (TrimSpace task.Title)
      ∧ RuneCountInString (TrimSpace task.Title) ≤ 50)
    (hdesc : RuneCountInString (TrimSpace task.Description) ≤ 200)
    (hstatus : isValidStatus task.Status = true)
    (hdate : isValidISO8601 task.DueDate = true)
    (h : ts.Update st { task with ID := c.Param "task_id" } = (st', t', some e)) :
    updateTask c ts st = (c.JSON StatusInternalServerError (.error e.Error), st') := by
  rw [updateTask_valid c ts st task hb htid htitle hdesc hstatus hdate, h]

theorem updateTask_success (c : Context Task) (ts : TaskService σ) (st st' : σ) (task t' : Task)
    (hb : c.ShouldBindJSON = .ok task) (htid : c.Param "task_id" ≠ "")
    (htitle : 2 ≤ RuneCountInString (TrimSpace task.Title)
      ∧ RuneCountInString (TrimSpace task.Title) ≤ 50)
    (hdesc : RuneCountInString (TrimSpace task.Description) ≤ 200)
    (hstatus : isValidStatus task.Status = true)
    (hdate : isValidISO8601 task.DueDate = true)
    (h : ts.Update st { task with ID := c.Param "task_id" } = (st', t', none)) :
    updateTask c ts st = (c.JSON StatusOK (.task t'), st') := by
  rw [updateTask_valid c ts st task hb htid htitle hdesc hstatus hdate, h]

end HandlerResults

/-! ## C10: how a not-found error is answered -/

section C10
open api

variable {σ : Type}

/-- C10 (as amended): on any database, when the service call returns the
user-not-found or the task-not-found error `e`: the get-user handler (any
request with a `user_id`) and the get-task handler (any request with a
`user_id` and a `task_id`) answer 404 with the error's message; the
delete-user handler (any request with a `user_id`), the delete-task handler
(any request with a `user_id` and a `task_id`) and the update-task handler
(any such request whose body binds and passes validation) answer 500 with
the error's message. -/
theorem not_found_translation (d : DB σ) (st : σ) (e : Error)
    (he : e = .ErrUserNotFound ∨ e = .ErrTaskNotFound) :
    (∀ (β : Type) (c : Context β), c.written = [] → c.Param "user_id" ≠ "" →
        (NewUserService d).Get st (c.Param "user_id") = .error e →
        (getUserHandler (NewUserService d) c st).1.response = (404, [.error e.Error]))
    ∧ (∀ (β : Type) (c : Context β), c.written = [] →
        c.Param "user_id" ≠ "" → c.Param "task_id" ≠ "" →
        (NewTaskService d (c.Param "user_id")).Get st (c.Param "task_id") = .error e →
        (taskHandler d getTask c st).1.response = (404, [.error e.Error]))
    ∧ (∀ (β : Type) (c : Context β) (st' : σ), c.written = [] → c.Param "user_id" ≠ "" →
        (NewUserService d).Delete st (c.Param "user_id") = (st', some e) →
        (deleteUserHandler (NewUserService d) c st).1.response = (500, [.error e.Error]))
    ∧ (∀ (β : Type) (c : Context β) (st' : σ), c.written = [] →
        c.Param "user_id" ≠ "" → c.Param "task_id" ≠ "" →
        (NewTaskService d (c.Param "user_id")).Delete st (c.Param "task_id") = (st', some e) →
        (taskHandler d deleteTask c st).1.response = (500, [.error e.Error]))
    ∧ (∀ (c : Context Task) (task : Task) (st' : σ) (t' : Task), c.written = [] →
        c.ShouldBindJSON = .ok task →
        c.Param "user_id" ≠ "" → c.Param "task_id" ≠ "" →
        (2 ≤ RuneCountInString (TrimSpace task.Title)
          ∧ RuneCountInString (TrimSpace task.Title) ≤ 50) →
        RuneCountInString (TrimSpace task.Description) ≤ 200 →
        isValidStatus task.Status = true → isValidISO8601 task.DueDate = true →
        (NewTaskService d (c.Param "user_id")).Update st
          { task with ID := c.Param "task_id" } = (st', t', some e) →
        (taskHandler d updateTask c st).1.response = (500, [.error e.Error])) := by
  have _ := he
  refine ⟨?_, ?_, ?_, ?_, ?_⟩
  · intro β c hc huid h
    rw [getUserHandler_error d c st e huid h]
    exact response_JSON c hc _ _
  · intro β c hc huid htid h
    rw [taskHandler_of_ne d getTask c st huid, getTask_error c _ st e htid h]
    exact response_JSON c hc _ _
  · intro β c st' hc huid h
    rw [deleteUserHandler_error d c st st' e huid h]
    exact response_JSON c hc _ _
  · intro β c st' hc huid htid h
    rw [taskHandler_of_ne d deleteTask c st huid, deleteTask_error c _ st st' e htid h]
    exact response_JSON c hc _ _
  · intro c task st' t' hc hb huid htid htitle hdesc hstatus hdate h
    rw [taskHandler_of_ne d updateTask c st huid,
      updateTask_error c _ st st' task t' e hb htid htitle hdesc hstatus hdate h]
    exact response_JSON c hc _ _

/-- Witness for C10: in `store1` there is no user "nobody" and `alice` has
no task "nothing"; `GET /users/nobody` and `GET /users/alice/tasks/nothing`
answer 404, `DELETE /users/nobody`, `DELETE /users/alice/tasks/nothing` and
`PUT /users/alice/tasks/nothing` answer 500. -/
theorem not_found_translation_witness :
    (getUserHandler (NewUserService sqlite)
        (Context.new [("user_id", "nobody")] [] noBody)
        store1).1.response = (404, [.error "user not found"])
    ∧ (deleteUserHandler (NewUserService sqlite)
        (Context.new [("user_id", "nobody")] [] noBody)
        store1).1.response = (500, [.error "user not found"])
    ∧ (taskHandler sqlite getTask
        (Context.new [("user_id", alice), ("task_id", "nothing")] [] noBody)
        store1).1.response = (404, [.error "task not found"])
    ∧ (taskHandler sqlite deleteTask
        (Context.new [("user_id", alice), ("task_id", "nothing")] [] noBody)
        store1).1.response = (500, [.error "task not found"])
    ∧ (taskHandler sqlite updateTask
        (Context.new [("user_id", alice), ("task_id", "nothing")] [] (.ok task1))
        store1).1.response = (500, [.error "task not found"]) :=
  have hu := not_found_translation sqlite store1 .ErrUserNotFound (Or.inl rfl)
  have ht := not_found_translation sqlite store1 .ErrTaskNotFound (Or.inr rfl)
  ⟨hu.1 Unit (Context.new [("user_id", "nobody")] [] noBody) rfl (by decide) rfl,
   hu.2.2.1 Unit (Context.new [("user_id", "nobody")] [] noBody) store1 rfl (by decide) rfl,
   ht.2.1 Unit (Context.new [("user_id", alice), ("task_id", "nothing")] [] noBody)
     rfl (by decide) (by decide) rfl,
   ht.2.2.2.1 Unit (Context.new [("user_id", alice), ("task_id", "nothing")] [] noBody) store1
     rfl (by decide) (by decide) rfl,
   ht.2.2.2.2 (Context.new [("user_id", alice), ("task_id", "nothing")] [] (.ok task1)) task1
     store1 { task1 with ID := "nothing", UserID := alice }
     rfl rfl (by decide) (by decide) (by decide) (by decide) (by decide) (by decide) rfl⟩

/-- Counterexample to C10 as stated: deleting the user "nobody", who is not
in `store1`, makes the service return `ErrUserNotFound`, and the handler
answers 500, not 404. -/
theorem not_found_translation_counterexample :
    ((NewUserService sqlite).Delete store1 "nobody").2 = some .ErrUserNotFound
    ∧ (deleteUserHandler (NewUserService sqlite)
        (Context.new [("user_id", "nobody")] [] noBody) store1).1.response
        = (500, [.error "user not found"])
    ∧ (deleteUserHandler (NewUserService sqlite)
        (Context.new [("user_id", "nobody")] [] noBody) store1).1.status ≠ 404 := by
  decide

end C10

/-! ## C4: a status update through the request handler -/

section C4
open api SQLiteDB

/-- C4 (as amended): for a task `old` stored in a database satisfying the
schema and a request on the path of its owner and its id: a body with
status "done" that also carries a title of 2 to 50 code points, a
description of at most 200 and an RFC 3339 due date is answered 200 with
the record as sent, and the stored row becomes `patched old` of that body:
its status is "done", its title and due date are the body's, its
description is the body's unless that is empty; a body that supplies only
the status "done" is answered 400 with "title must be between 2 and 50
characters" and the database is left as it was. -/
theorem status_update_via_handler (s : Store) (hs : s.WF) (old : Task) (hold : old ∈ s.tasks)
    (c : Context Task) (body : Task)
    (hc : c.written = []) (hb : c.ShouldBindJSON = .ok body)
    (huid : c.Param "user_id" = old.UserID) (htid : c.Param "task_id" = old.ID)
    (hu : old.UserID ≠ "") (hi : old.ID ≠ "")
    (hstatus : body.Status = "done")
    (htitle : 2 ≤ RuneCountInString (TrimSpace body.Title)
      ∧ RuneCountInString (TrimSpace body.Title) ≤ 50)
    (hdesc : RuneCountInString (TrimSpace body.Description) ≤ 200)
    (hdate : isValidISO8601 body.DueDate = true) :
    (taskHandler sqlite updateTask c s).1.response
        = (200, [.task { body with ID := old.ID, UserID := old.UserID }])
    ∧ GetTask (taskHandler sqlite updateTask c s).2 old.ID
        = .ok { old with
            Title := body.Title
            Description := if body.Description ≠ "" then body.Description else old.Description
            DueDate := body.DueDate
            Status := "done" }
    ∧ (∀ id uid : String,
        taskHandler sqlite updateTask
            { c with ShouldBindJSON := .ok (Task.mk id "" "" "" "done" uid) } s
          = ({ c with ShouldBindJSON := .ok (Task.mk id "" "" "" "done" uid) }.JSON 400
                (.error "title must be between 2 and 50 characters"), s)) := by
  have huid' : c.Param "user_id" ≠ "" := by rw [huid]; exact hu
  have htid' : c.Param "task_id" ≠ "" := by rw [htid]; exact hi
  have hvalid : isValidStatus body.Status = true := by rw [hstatus]; decide
  have htne : body.Title ≠ "" := by
    intro h
    rw [h] at htitle
    exact absurd htitle.1 (by decide)
  have hdne : body.DueDate ≠ "" := by
    intro h
    rw [h] at hdate
    exact absurd hdate (by decide)
  have hpu := updateTask_of_hit s hs old hold { body with ID := old.ID, UserID := old.UserID }
    rfl rfl (Or.inl htne)
  have hupd : (NewTaskService sqlite (c.Param "user_id")).Update s
        { body with ID := c.Param "task_id" }
      = ((UpdateTask s { body with ID := old.ID, UserID := old.UserID }).1,
          { body with ID := old.ID, UserID := old.UserID }, none) := by
    have : (NewTaskService sqlite (c.Param "user_id")).Update s
        { body with ID := c.Param "task_id" }
        = UpdateTask s { body with ID := old.ID, UserID := old.UserID } := by
      simp [TaskService.Update, NewTaskService, sqlite, huid, htid]
    rw [this, hpu]
  have hres := updateTask_success c (NewTaskService sqlite (c.Param "user_id")) s _ body _
    hb htid' htitle hdesc hvalid hdate hupd
  refine ⟨?_, ?_, ?_⟩
  · rw [taskHandler_of_ne sqlite updateTask c s huid', hres]
    exact response_JSON c hc _ _
  · rw [taskHandler_of_ne sqlite updateTask c s huid', hres]
    rw [hpu]
    have := getTask_of_patched s hs old hold { body with ID := old.ID, UserID := old.UserID }
    simpa [patched, htne, hdne, hstatus] using this
  · intro id uid
    have hp : ∀ k, Context.Param { c with ShouldBindJSON := .ok (Task.mk id "" "" "" "done" uid) } k
        = c.Param k := fun _ => rfl
    rw [taskHandler_of_ne sqlite updateTask _ s (by rw [hp]; exact huid')]
    unfold updateTask
    rw [getParam_of_ne _ "task_id" (by rw [hp]; exact htid')]
    rfl

/-- Witness for C4: the update of the test suite on `task1`. -/
theorem status_update_via_handler_witness :
    (taskHandler sqlite updateTask
        (Context.new [("user_id", alice), ("task_id", "t1")] []
          (.ok ⟨"", "Updated Task", "", "2025-08-09T15:04:05Z", "done", ""⟩))
        store1).1.response
      = (200, [.task ⟨"t1", "Updated Task", "", "2025-08-09T15:04:05Z", "done", alice⟩])
    ∧ GetTask (taskHandler sqlite updateTask
        (Context.new [("user_id", alice), ("task_id", "t1")] []
          (.ok ⟨"", "Updated Task", "", "2025-08-09T15:04:05Z", "done", ""⟩))
        store1).2 "t1"
      = .ok ⟨"t1", "Updated Task", "This is a test task", "2025-08-09T15:04:05Z", "done", alice⟩ :=
  have h := status_update_via_handler store1 (by decide) task1 (by decide)
    (Context.new [("user_id", alice), ("task_id", "t1")] []
      (.ok ⟨"", "Updated Task", "", "2025-08-09T15:04:05Z", "done", ""⟩))
    ⟨"", "Updated Task", "", "2025-08-09T15:04:05Z", "done", ""⟩
    rfl rfl rfl rfl (by decide) (by decide) rfl (by decide) (by decide) (by decide)
  ⟨h.1, h.2.1⟩

/-- Counterexample to C4 as stated: `alice` updates her task `t1` with a
body that supplies only the status "done"; the answer is 400, not 200, and
the stored status is still "pending". -/
theorem status_update_via_handler_counterexample :
    task1 ∈ store1.tasks ∧ task1.UserID = alice
    ∧ (taskHandler sqlite updateTask
        (Context.new [("user_id", alice), ("task_id", "t1")] []
          (.ok ⟨"", "", "", "", "done", ""⟩))
        store1).1.response
      = (400, [.error "title must be between 2 and 50 characters"])
    ∧ (taskHandler sqlite updateTask
        (Context.new [("user_id", alice), ("task_id", "t1")] []
          (.ok ⟨"", "", "", "", "done", ""⟩))
        store1).2 = store1
    ∧ (store1.tasks.find? (fun r => r.ID == "t1")).map (·.Status) = some "pending" := by
  decide

end C4

/-! ## C8: the due-date rule -/

section C8
open api time

variable {σ : Type}

theorem isDigit_nil (i : Nat) : isDigit [] i = false := by
  simp [isDigit]

theorem isDigit_cons_zero (c : Char) (l : List Char) : isDigit (c :: l) 0 = decimal c := by
  simp [isDigit, decimal]

theorem isDigit_cons_succ (c : Char) (l : List Char) (i : Nat) :
    isDigit (c :: l) (i + 1) = isDigit l i := by
  simp [isDigit]

theorem digitAt_cons_zero (c : Char) (l : List Char) :
    digitAt (c :: l) 0 = c.toNat - '0'.toNat := by
  simp [digitAt]

theorem digitAt_cons_succ (c : Char) (l : List Char) (i : Nat) :
    digitAt (c :: l) (i + 1) = digitAt l i := by
  simp [digitAt]

theorem field_one (l : List Char) (n : Nat) :
    Field 1 l n ↔ ∃ a, l = [a] ∧ decimal a = true ∧ n = a.toNat - '0'.toNat := by
  constructor
  · rintro ⟨hlen, hd, hn⟩
    obtain ⟨a, rfl⟩ := List.length_eq_one.mp hlen
    exact ⟨a, rfl, hd a (by simp), by simpa [numeral] using hn.symm⟩
  · rintro ⟨a, rfl, ha, rfl⟩
    exact ⟨rfl, by simpa using ha, by simp [numeral]⟩

theorem field_two (l : List Char) (n : Nat) :
    Field 2 l n ↔ ∃ a b, l = [a, b] ∧ decimal a = true ∧ decimal b = true
      ∧ n = (a.toNat - '0'.toNat) * 10 + (b.toNat - '0'.toNat) := by
  constructor
  · rintro ⟨hlen, hd, hn⟩
    obtain ⟨a, b, rfl⟩ := List.length_eq_two.mp hlen
    refine ⟨a, b, rfl, hd a (by simp), hd b (by simp), ?_⟩
    rw [← hn]
    simp [numeral]
    omega
  · rintro ⟨a, b, rfl, ha, hb, rfl⟩
    refine ⟨rfl, by simp [ha, hb], ?_⟩
    simp [numeral]
    omega

theorem getnum_fixed_iff (v rest : List Char) (n : Nat) :
    getnum v true = some (n, rest) ↔ ∃ l, v = l ++ rest ∧ Field 2 l n := by
  constructor
  · intro h
    rcases v with _ | ⟨a, _ | ⟨b, r⟩⟩
    · simp [getnum, isDigit_nil] at h
    · simp [getnum, isDigit_cons_zero, isDigit_cons_succ, isDigit_nil] at h
    · by_cases ha : decimal a = true <;> by_cases hb : decimal b = true <;>
        simp [getnum, isDigit_cons_zero, isDigit_cons_succ, digitAt_cons_zero,
          digitAt_cons_succ, ha, hb] at h
      obtain ⟨rfl, rfl⟩ := h
      exact ⟨[a, b], rfl, (field_two _ _).mpr ⟨a, b, rfl, ha, hb, rfl⟩⟩
  · rintro ⟨l, rfl, hf⟩
    obtain ⟨a, b, rfl, ha, hb, rfl⟩ := (field_two _ _).mp hf
    simp [getnum, isDigit_cons_zero, isDigit_cons_succ, digitAt_cons_zero,
      digitAt_cons_succ, ha, hb]

theorem getnum_free_iff (v rest : List Char) (n : Nat) :
    getnum v false = some (n, rest) ↔
      (∃ l, v = l ++ rest ∧ Field 2 l n)
      ∨ (∃ l, v = l ++ rest ∧ Field 1 l n ∧ isDigit rest 0 = false) := by
  constructor
  · intro h
    rcases v with _ | ⟨a, _ | ⟨b, r⟩⟩
    · simp [getnum, isDigit_nil] at h
    · by_cases ha : decimal a = true <;>
        simp [getnum, isDigit_cons_zero, isDigit_cons_succ, isDigit_nil, digitAt_cons_zero,
          ha] at h
      obtain ⟨rfl, rfl⟩ := h
      exact Or.inr ⟨[a], rfl, (field_one _ _).mpr ⟨a, rfl, ha, rfl⟩, isDigit_nil 0⟩
    · by_cases ha : decimal a = true <;> by_cases hb : decimal b = true <;>
        simp [getnum, isDigit_cons_zero, isDigit_cons_succ, digitAt_cons_zero,
          digitAt_cons_succ, ha, hb] at h
      · obtain ⟨rfl, rfl⟩ := h
        exact Or.inl ⟨[a, b], rfl, (field_two _ _).mpr ⟨a, b, rfl, ha, hb, rfl⟩⟩
      · obtain ⟨rfl, rfl⟩ := h
        refine Or.inr ⟨[a], rfl, (field_one _ _).mpr ⟨a, rfl, ha, rfl⟩, ?_⟩
        simpa [isDigit_cons_zero] using hb
  · rintro (⟨l, rfl, hf⟩ | ⟨l, rfl, hf, hr⟩)
    · obtain ⟨a, b, rfl, ha, hb, rfl⟩ := (field_two _ _).mp hf
      simp [getnum, isDigit_cons_zero, isDigit_cons_succ, digitAt_cons_zero,
        digitAt_cons_succ, ha, hb]
    · obtain ⟨a, rfl, ha, rfl⟩ := (field_one _ _).mp hf
      rcases rest with _ | ⟨b, r⟩
      · simp [getnum, isDigit_cons_zero, isDigit_cons_succ, isDigit_nil, digitAt_cons_zero, ha]
      · rw [isDigit_cons_zero] at hr
        simp [getnum, isDigit_cons_zero, isDigit_cons_succ, digitAt_cons_zero, ha, hr]

theorem skip_iff (v rest : List Char) (c : Char) :
    skip v c = some rest ↔ v = c :: rest := by
  rcases v with _ | ⟨a, r⟩
  · simp [skip]
  · by_cases h : a = c <;> simp [skip, h]

theorem field_four (l : List Char) (n : Nat) :
    Field 4 l n ↔ ∃ a b c d, l = [a, b, c, d] ∧ decimal a = true ∧ decimal b = true
      ∧ decimal c = true ∧ decimal d = true
      ∧ n = (a.toNat - '0'.toNat) * 1000 + (b.toNat - '0'.toNat) * 100
          + (c.toNat - '0'.toNat) * 10 + (d.toNat - '0'.toNat) := by
  constructor
  · rintro ⟨hlen, hd, hn⟩
    rcases l with _ | ⟨a, _ | ⟨b, _ | ⟨c, _ | ⟨d, _ | ⟨e, r⟩⟩⟩⟩⟩ <;> simp at hlen
    refine ⟨a, b, c, d, rfl, hd a (by simp), hd b (by simp), hd c (by simp), hd d (by simp), ?_⟩
    rw [← hn]
    simp [numeral]
    omega
  · rintro ⟨a, b, c, d, rfl, ha, hb, hc, hd, rfl⟩
    refine ⟨rfl, by simp [ha, hb, hc, hd], ?_⟩
    simp [numeral]
    omega

/-- The `stdLongYear` step. -/
theorem year_iff (v : List Char) (year : Nat) :
    ((v.length < 4 || !isDigit v 0) = false ∧ atoi4 (v.take 4) = some year)
      ↔ ∃ l, v = l ++ v.drop 4 ∧ Field 4 l year := by
  constructor
  · rintro ⟨h1, h2⟩
    rcases v with _ | ⟨a, _ | ⟨b, _ | ⟨c, _ | ⟨d, r⟩⟩⟩⟩
    · simp at h1
    · simp at h1
    · simp at h1
    · simp at h1
    · by_cases ha : decimal a = true <;> by_cases hb : decimal b = true <;>
        by_cases hc : decimal c = true <;> by_cases hd : decimal d = true <;>
        simp [atoi4, isDigit_cons_zero, isDigit_cons_succ, digitAt_cons_zero,
          digitAt_cons_succ, ha, hb, hc, hd] at h2
      exact ⟨[a, b, c, d], rfl, (field_four _ _).mpr ⟨a, b, c, d, rfl, ha, hb, hc, hd, h2.symm⟩⟩
  · rintro ⟨l, hv, hf⟩
    obtain ⟨a, b, c, d, rfl, ha, hb, hc, hd, rfl⟩ := (field_four _ _).mp hf
    rw [hv]
    simp [atoi4, isDigit_cons_zero, isDigit_cons_succ, digitAt_cons_zero,
      digitAt_cons_succ, ha, hb, hc, hd]

theorem isDigit_singleton (d : Char) : isDigit [d] 0 = decimal d :=
  isDigit_cons_zero d []

theorem dropWhile_digits_append (ds Z : List Char) (hds : ∀ c ∈ ds, decimal c = true)
    (hZ : isDigit Z 0 = false) :
    (ds ++ Z).dropWhile (fun d => isDigit [d] 0) = Z := by
  induction ds with
  | nil =>
    rcases Z with _ | ⟨z, r⟩
    · rfl
    · rw [isDigit_cons_zero] at hZ
      simp [List.dropWhile, isDigit_singleton, hZ]
  | cons a ds ih =>
    have ha := hds a (List.mem_cons_self a ds)
    simp only [List.cons_append, List.dropWhile, isDigit_singleton, ha]
    exact ih (fun c hc => hds c (List.mem_cons_of_mem a hc))

/-- What `skipFraction` removes is a fraction of the profile of `parse`. -/
theorem skipFraction_decomp (v : List Char) :
    ∃ F, v = F ++ skipFraction v ∧ FractionForm parseProfile F := by
  rcases v with _ | ⟨c, rest⟩
  · exact ⟨[], rfl, Or.inl rfl⟩
  · by_cases h : (commaOrPeriod c && isDigit rest 0) = true
    · refine ⟨c :: rest.takeWhile (fun d => isDigit [d] 0), ?_, Or.inr ⟨c, _, rfl, ?_, ?_, ?_⟩⟩
      · simp [skipFraction, h, List.takeWhile_append_dropWhile]
      · have hc : commaOrPeriod c = true := by
          cases hcp : commaOrPeriod c <;> simp [hcp] at h ⊢
        simp only [commaOrPeriod, Bool.or_eq_true, beq_iff_eq] at hc
        rcases hc with hc | hc
        · exact Or.inl hc
        · exact Or.inr ⟨rfl, hc⟩
      · rcases rest with _ | ⟨d, r⟩
        · simp [isDigit_nil] at h
        · have hd : decimal d = true := by
            rw [isDigit_cons_zero] at h
            cases hdd : decimal d <;> simp [hdd] at h ⊢
          simp [List.takeWhile, isDigit_singleton, hd]
      · intro d hd
        have := List.mem_takeWhile_imp hd
        simpa [isDigit_singleton] using this
    · refine ⟨[], ?_, Or.inl rfl⟩
      simp [skipFraction, h]

theorem skipFraction_append (F Z : List Char) (hF : FractionForm parseProfile F)
    (hZd : isDigit Z 0 = false) (hZc : ∀ c r, Z = c :: r → commaOrPeriod c = false) :
    skipFraction (F ++ Z) = Z := by
  rcases hF with rfl | ⟨sep, ds, rfl, hsep, hne, hds⟩
  · rcases Z with _ | ⟨c, r⟩
    · rfl
    · simp [skipFraction, hZc c r rfl]
  · have hcp : commaOrPeriod sep = true := by
      rcases hsep with h | ⟨_, h⟩ <;> subst h <;> decide
    have hdig : isDigit (ds ++ Z) 0 = true := by
      rcases ds with _ | ⟨d, r⟩
      · exact absurd rfl hne
      · rw [List.cons_append, isDigit_cons_zero]
        exact hds d (List.mem_cons_self d r)
    simp only [List.cons_append, skipFraction, hcp, hdig, Bool.and_self, if_true]
    exact dropWhile_digits_append ds Z hds hZd

theorem getnum_pair (a b : Char) :
    getnum [a, b] true =
      if decimal a = true ∧ decimal b = true then
        some ((a.toNat - '0'.toNat) * 10 + (b.toNat - '0'.toNat), [])
      else none := by
  by_cases ha : decimal a = true <;> by_cases hb : decimal b = true <;>
    simp [getnum, isDigit_cons_zero, isDigit_cons_succ, digitAt_cons_zero,
      digitAt_cons_succ, ha, hb]

/-- The `stdISO8601ColonTZ` step, when it consumes the whole value. -/
theorem parseZone_iff (v : List Char) :
    (∃ off, parseZone v = some (off, [])) ↔ ZoneForm parseProfile v := by
  constructor
  · rintro ⟨off, h⟩
    by_cases hz : v.get? 0 = some 'Z'
    · rcases v with _ | ⟨z, r⟩
      · simp at hz
      · simp only [List.get?_cons_zero, Option.some.injEq] at hz
        subst hz
        simp [parseZone] at h
        exact Or.inl (by rw [h.2])
    · rcases v with _ | ⟨sg, _ | ⟨a, _ | ⟨b, _ | ⟨k, _ | ⟨c, _ | ⟨d, r⟩⟩⟩⟩⟩⟩
      · simp [parseZone] at h
      · simp [parseZone] at h hz; exact absurd h.1 hz
      · simp [parseZone] at h hz
      · simp [parseZone] at h hz
      · simp [parseZone] at h hz
      · simp [parseZone] at h hz
      · simp only [List.get?_cons_zero, Option.some.injEq] at hz
        by_cases hk : k = ':'
        · subst hk
          by_cases hab : decimal a = true ∧ decimal b = true
          · by_cases hcd : decimal c = true ∧ decimal d = true
            · simp [parseZone, hz, getnum_pair, hab, hcd] at h
              obtain ⟨h24, h60, hs⟩ := h
              have hr : r = [] := by
                by_cases hp : sg = '+'
                · simp [hp] at hs; exact hs.2
                · by_cases hm : sg = '-'
                  · simp [hm] at hs; exact hs.2
                  · simp [hp, hm] at hs
              have hsg : sg = '+' ∨ sg = '-' := by
                by_cases hp : sg = '+'
                · exact Or.inl hp
                · by_cases hm : sg = '-'
                  · exact Or.inr hm
                  · simp [hp, hm] at hs
              subst hr
              exact Or.inr ⟨sg, [a, b], [c, d], _, _, rfl, hsg,
                (field_two _ _).mpr ⟨a, b, rfl, hab.1, hab.2, rfl⟩,
                (field_two _ _).mpr ⟨c, d, rfl, hcd.1, hcd.2, rfl⟩, h24, h60⟩
            · simp [parseZone, hz, getnum_pair, hab, hcd] at h
          · simp [parseZone, hz, getnum_pair, hab] at h
        · simp [parseZone, hz, hk] at h
  · rintro (rfl | ⟨sg, H, M, h, m, rfl, hsg, hH, hM, h24, h60⟩)
    · exact ⟨0, by simp [parseZone]⟩
    · obtain ⟨a, b, rfl, ha, hb, rfl⟩ := (field_two _ _).mp hH
      obtain ⟨c, d, rfl, hc, hd, rfl⟩ := (field_two _ _).mp hM
      simp only [parseProfile] at h24 h60
      rcases hsg with rfl | rfl
      · exact ⟨((((a.toNat - '0'.toNat) * 10 + (b.toNat - '0'.toNat)) * 60
            + ((c.toNat - '0'.toNat) * 10 + (d.toNat - '0'.toNat))) * 60 : Nat),
          by
            simp only [Char.reduceToNat] at h24 h60
            simp [parseZone, getnum_pair, ha, hb, hc, hd, h24, h60]⟩
      · exact ⟨-(((((a.toNat - '0'.toNat) * 10 + (b.toNat - '0'.toNat)) * 60
            + ((c.toNat - '0'.toNat) * 10 + (d.toNat - '0'.toNat))) * 60 : Nat) : Int),
          by
            simp only [Char.reduceToNat] at h24 h60
            simp [parseZone, getnum_pair, ha, hb, hc, hd, h24, h60]⟩

theorem isSome_bind {α γ : Type} {o : Option α} {f : α → Option γ}
    (h : (o.bind f).isSome = true) : ∃ a, o = some a ∧ (f a).isSome = true := by
  cases o with
  | none => simp at h
  | some a => exact ⟨a, rfl, by simpa using h⟩

theorem isSome_ite_none {α : Type} {c : Prop} [Decidable c] {x : Option α}
    (h : (if c then none else x).isSome = true) : ¬ c ∧ x.isSome = true := by
  by_cases hc : c
  · simp [hc] at h
  · exact ⟨hc, by simpa [hc] using h⟩

theorem zone_head (p : Profile) (Z : List Char) (hZ : ZoneForm p Z) :
    isDigit Z 0 = false ∧ ∀ c r, Z = c :: r → commaOrPeriod c = false := by
  rcases hZ with rfl | ⟨sg, H, M, h, m, rfl, hsg, _⟩
  · refine ⟨by decide, ?_⟩
    intro c r hcr
    simp only [List.cons.injEq] at hcr
    rw [← hcr.1]
    decide
  · refine ⟨?_, ?_⟩
    · rw [List.cons_append, isDigit_cons_zero]
      rcases hsg with rfl | rfl <;> decide
    · intro c r hcr
      simp only [List.cons_append, List.cons.injEq] at hcr
      rw [← hcr.1]
      rcases hsg with rfl | rfl <;> decide

/-- Soundness of `parse`: what it accepts is a date-time of its profile. -/
theorem form_of_parse (v : List Char) (h : (parse v).isSome = true) :
    DateTimeForm parseProfile v := by
  unfold parse at h
  obtain ⟨h0, h⟩ := isSome_ite_none h
  obtain ⟨year, hy, h⟩ := isSome_bind h
  obtain ⟨v1, hs1, h⟩ := isSome_bind h
  obtain ⟨⟨month, v2⟩, hm, h⟩ := isSome_bind h
  dsimp only at h
  obtain ⟨hmr, h⟩ := isSome_ite_none h
  obtain ⟨v3, hs2, h⟩ := isSome_bind h
  obtain ⟨⟨day, v4⟩, hd, h⟩ := isSome_bind h
  dsimp only at h
  obtain ⟨v5, hs3, h⟩ := isSome_bind h
  obtain ⟨⟨hour, v6⟩, hh, h⟩ := isSome_bind h
  dsimp only at h
  obtain ⟨hhr, h⟩ := isSome_ite_none h
  obtain ⟨v7, hs4, h⟩ := isSome_bind h
  obtain ⟨⟨min, v8⟩, hn, h⟩ := isSome_bind h
  dsimp only at h
  obtain ⟨hnr, h⟩ := isSome_ite_none h
  obtain ⟨v9, hs5, h⟩ := isSome_bind h
  obtain ⟨⟨sec, v10⟩, hsec, h⟩ := isSome_bind h
  dsimp only at h
  obtain ⟨hsr, h⟩ := isSome_ite_none h
  obtain ⟨⟨off, v11⟩, hz, h⟩ := isSome_bind h
  dsimp only at h
  obtain ⟨hend, h⟩ := isSome_ite_none h
  obtain ⟨hday, _⟩ := isSome_ite_none h
  have h0' : (decide (v.length < 4) || !isDigit v 0) = false := by
    simpa using h0
  obtain ⟨Y, hY, hYf⟩ := (year_iff v year).mp ⟨h0', hy⟩
  rw [skip_iff] at hs1 hs2 hs3 hs4 hs5
  obtain ⟨M, hM, hMf⟩ := (getnum_fixed_iff _ _ _).mp hm
  obtain ⟨D, hD, hDf⟩ := (getnum_fixed_iff _ _ _).mp hd
  obtain ⟨N, hN, hNf⟩ := (getnum_fixed_iff _ _ _).mp hn
  obtain ⟨S, hS, hSf⟩ := (getnum_fixed_iff _ _ _).mp hsec
  have hH : ∃ H, v5 = H ++ v6 ∧ (Field 2 H hour ∨ (parseProfile.oneDigitHour = true ∧ Field 1 H hour)) := by
    rcases (getnum_free_iff _ _ _).mp hh with ⟨H, hH, hHf⟩ | ⟨H, hH, hHf, _⟩
    · exact ⟨H, hH, Or.inl hHf⟩
    · exact ⟨H, hH, Or.inr ⟨rfl, hHf⟩⟩
  obtain ⟨H, hH, hHf⟩ := hH
  obtain ⟨F, hF, hFf⟩ := skipFraction_decomp v10
  have hv11 : v11 = [] := by
    cases v11 with
    | nil => rfl
    | cons a r => simp at hend
  subst hv11
  have hZ := (parseZone_iff _).mp ⟨off, hz⟩
  refine ⟨Y, M, D, H, N, S, F, skipFraction v10, year, month, day, hour, min, sec,
    ?_, hYf, hMf, hDf, hHf, hNf, hSf, hFf, hZ, ?_, ?_, ?_, ?_, ?_, ?_, ?_⟩
  · rw [hY, hs1, hM, hs2, hD, hs3, hH, hs4, hN, hs5, hS]
    conv_lhs => rw [hF]
    simp
  · simp at hmr; omega
  · simp at hmr; omega
  · simp at hday; omega
  · simp at hday; omega
  · omega
  · omega
  · omega

/-- Completeness of `parse`: it accepts every date-time of its profile. -/
theorem parse_of_form (v : List Char) (h : DateTimeForm parseProfile v) :
    (parse v).isSome = true := by
  obtain ⟨Y, M, D, H, N, S, F, Z, year, month, day, hour, min, sec, rfl, hY, hM, hD, hH, hN,
    hS, hF, hZ, hm1, hm2, hd1, hd2, hh, hn, hs⟩ := h
  obtain ⟨off, hoff⟩ := (parseZone_iff Z).mpr hZ
  obtain ⟨hZd, hZc⟩ := zone_head _ Z hZ
  have hfrac : skipFraction (F ++ Z) = Z := skipFraction_append F Z hF hZd hZc
  have e6 : getnum (S ++ (F ++ Z)) true = some (sec, F ++ Z) :=
    (getnum_fixed_iff _ _ _).mpr ⟨S, rfl, hS⟩
  have e5 : getnum (N ++ ':' :: (S ++ (F ++ Z))) true = some (min, ':' :: (S ++ (F ++ Z))) :=
    (getnum_fixed_iff _ _ _).mpr ⟨N, rfl, hN⟩
  have e4 : getnum (H ++ ':' :: (N ++ ':' :: (S ++ (F ++ Z)))) false
      = some (hour, ':' :: (N ++ ':' :: (S ++ (F ++ Z)))) := by
    rw [getnum_free_iff]
    rcases hH with hH | ⟨_, hH⟩
    · exact Or.inl ⟨H, rfl, hH⟩
    · exact Or.inr ⟨H, rfl, hH, by rw [isDigit_cons_zero]; decide⟩
  have e3 : getnum (D ++ 'T' :: (H ++ ':' :: (N ++ ':' :: (S ++ (F ++ Z))))) true
      = some (day, 'T' :: (H ++ ':' :: (N ++ ':' :: (S ++ (F ++ Z))))) :=
    (getnum_fixed_iff _ _ _).mpr ⟨D, rfl, hD⟩
  have e2 : getnum (M ++ '-' :: (D ++ 'T' :: (H ++ ':' :: (N ++ ':' :: (S ++ (F ++ Z)))))) true
      = some (month, '-' :: (D ++ 'T' :: (H ++ ':' :: (N ++ ':' :: (S ++ (F ++ Z)))))) :=
    (getnum_fixed_iff _ _ _).mpr ⟨M, rfl, hM⟩
  have hYlen : Y.length = 4 := hY.1
  have hnorm : Y ++ '-' :: M ++ '-' :: D ++ 'T' :: H ++ ':' :: N ++ ':' :: S ++ F ++ Z
      = Y ++ '-' :: (M ++ '-' :: (D ++ 'T' :: (H ++ ':' :: (N ++ ':' :: (S ++ (F ++ Z)))))) := by
    simp
  rw [hnorm]
  have hdrop : (Y ++ '-' :: (M ++ '-' :: (D ++ 'T' :: (H ++ ':' :: (N ++ ':' :: (S ++ (F ++ Z))))))).drop 4
      = '-' :: (M ++ '-' :: (D ++ 'T' :: (H ++ ':' :: (N ++ ':' :: (S ++ (F ++ Z)))))) :=
    List.drop_left' hYlen
  have e1 := (year_iff (Y ++ '-' :: (M ++ '-' :: (D ++ 'T' :: (H ++ ':' :: (N ++ ':' ::
    (S ++ (F ++ Z))))))) year).mpr ⟨Y, by rw [hdrop], hY⟩
  have hmr : ¬ ((month == 0 || decide (12 < month)) = true) := by
    simp; omega
  have hhr : ¬ (24 ≤ hour) := by omega
  have hnr : ¬ (60 ≤ min) := by omega
  have hsr : ¬ (60 ≤ sec) := by omega
  have hdr : ¬ ((decide (day < 1) || decide (day > daysIn month year)) = true) := by
    simp; omega
  unfold parse
  rw [e1.1, e1.2, hdrop]
  simp only [Bool.false_eq_true, if_false, Option.bind, skip, beq_self_eq_true, if_true, e2, e3,
    e4, e5, e6, hmr, hhr, hnr, hsr, hfrac, hoff, hdr, List.length_nil, bne_self_eq_false,
    Option.isSome]

/-- The language of `isValidISO8601`. -/
theorem isValidISO8601_iff (s : String) :
    isValidISO8601 s = true ↔ DateTimeForm parseProfile s.data :=
  ⟨form_of_parse s.data, parse_of_form s.data⟩

theorem fractionForm_mono (F : List Char) (h : FractionForm strictProfile F) :
    FractionForm parseProfile F := by
  rcases h with h | ⟨sep, ds, hF, hsep, hne, hds⟩
  · exact Or.inl h
  · refine Or.inr ⟨sep, ds, hF, ?_, hne, hds⟩
    rcases hsep with h | ⟨h, _⟩
    · exact Or.inl h
    · simp [strictProfile] at h

theorem zoneForm_mono (Z : List Char) (h : ZoneForm strictProfile Z) :
    ZoneForm parseProfile Z := by
  rcases h with h | ⟨sg, H, M, hh, mm, hZ, hsg, hH, hM, h1, h2⟩
  · exact Or.inl h
  · refine Or.inr ⟨sg, H, M, hh, mm, hZ, hsg, hH, hM, ?_, ?_⟩
    · simp only [strictProfile] at h1; simp only [parseProfile]; omega
    · simp only [strictProfile] at h2; simp only [parseProfile]; omega

/-- Every date-time of the strict profile is one of the profile of `parse`. -/
theorem dateTimeForm_mono (v : List Char) (h : DateTimeForm strictProfile v) :
    DateTimeForm parseProfile v := by
  obtain ⟨Y, M, D, H, N, S, F, Z, year, month, day, hour, min, sec, hv, hY, hM, hD, hH, hN,
    hS, hF, hZ, hr⟩ := h
  refine ⟨Y, M, D, H, N, S, F, Z, year, month, day, hour, min, sec, hv, hY, hM, hD, ?_, hN,
    hS, fractionForm_mono F hF, zoneForm_mono Z hZ, hr⟩
  rcases hH with h | ⟨h, _⟩
  · exact Or.inl h
  · simp [strictProfile] at h

/-- The string `2025-12-31T1:00:00Z`, whose hour has one digit, is not of
the strict profile. -/
theorem one_digit_hour_not_strict : ¬ DateTimeForm strictProfile "2025-12-31T1:00:00Z".data := by
  rintro ⟨Y, M, D, H, N, S, F, Z, year, month, day, hour, min, sec, hv, hY, hM, hD, hH, hN,
    hS, hF, hZ, hr⟩
  obtain ⟨y1, y2, y3, y4, rfl, -⟩ := (field_four _ _).mp hY
  obtain ⟨m1, m2, rfl, -⟩ := (field_two _ _).mp hM
  obtain ⟨d1, d2, rfl, -⟩ := (field_two _ _).mp hD
  rcases hH with hH | ⟨h, _⟩
  · obtain ⟨h1, h2, rfl, -⟩ := (field_two _ _).mp hH
    simp at hv
  · simp [strictProfile] at h

/-- C8 (as amended): `isValidISO8601 s` holds exactly when `s` is a
date-time of the profile of `time.Parse`: a 4-digit year, 2-digit month
and day, the letter T, an hour of two digits or of one, 2-digit minute and
second, an optional fraction after a period or a comma, and `Z` or a signed
`hh:mm` offset of at most `24:60`, with month, day, hour, minute and second
in range.  Every date-time of the strict profile is accepted;
"2025-12-31T10:00:00Z" is accepted; "not-a-date", the empty string, a date
without a time and a date-time without a zone designator are refused.  On
any database, every request whose body binds, passes the title,
description and status checks and fails this one is answered 400 with
"due_date must be ISO 8601 format (RFC3339)", the state untouched: by
`createTask` for any request with a `user_id`, by `updateTask` for any
request with a `user_id` and a `task_id`. -/
theorem due_date_rule (d : DB σ) (u : UUID) (st : σ) :
    (∀ s : String, isValidISO8601 s = true ↔ DateTimeForm parseProfile s.data)
    ∧ (∀ s : String, DateTimeForm strictProfile s.data → isValidISO8601 s = true)
    ∧ isValidISO8601 "2025-12-31T10:00:00Z" = true
    ∧ isValidISO8601 "not-a-date" = false
    ∧ isValidISO8601 "" = false
    ∧ isValidISO8601 "2025-12-31" = false
    ∧ isValidISO8601 "2025-12-31T10:00:00" = false
    ∧ (∀ (c : Context Task) (task : Task), c.written = [] → c.ShouldBindJSON = .ok task →
        c.Param "user_id" ≠ "" →
        (2 ≤ RuneCountInString (TrimSpace task.Title)
          ∧ RuneCountInString (TrimSpace task.Title) ≤ 50) →
        RuneCountInString (TrimSpace task.Description) ≤ 200 →
        isValidStatus task.Status = true → isValidISO8601 task.DueDate = false →
        (taskHandler d (createTask u) c st).1.response
            = (400, [.error "due_date must be ISO 8601 format (RFC3339)"])
        ∧ (taskHandler d (createTask u) c st).2 = st)
    ∧ (∀ (c : Context Task) (task : Task), c.written = [] → c.ShouldBindJSON = .ok task →
        c.Param "user_id" ≠ "" → c.Param "task_id" ≠ "" →
        (2 ≤ RuneCountInString (TrimSpace task.Title)
          ∧ RuneCountInString (TrimSpace task.Title) ≤ 50) →
        RuneCountInString (TrimSpace task.Description) ≤ 200 →
        isValidStatus task.Status = true → isValidISO8601 task.DueDate = false →
        (taskHandler d updateTask c st).1.response
            = (400, [.error "due_date must be ISO 8601 format (RFC3339)"])
        ∧ (taskHandler d updateTask c st).2 = st) := by
  refine ⟨isValidISO8601_iff, fun s hs => (isValidISO8601_iff s).mpr (dateTimeForm_mono _ hs),
    by decide, by decide, by decide, by decide, by decide, ?_, ?_⟩
  · intro c task hc hb huid htitle hdesc hstatus hdate
    have hcreate : taskHandler d (createTask u) c st
        = (c.JSON 400 (.error "due_date must be ISO 8601 format (RFC3339)"), st) := by
      rw [taskHandler_of_ne d (createTask u) c st huid]
      unfold createTask
      rw [hb]
      dsimp only
      rw [if_neg (titleOk_not_bad htitle), if_neg (descOk_not_bad hdesc)]
      simp only [hstatus, hdate, Bool.not_true, Bool.not_false, Bool.false_eq_true, if_false,
        if_true, StatusBadRequest]
    rw [hcreate]
    exact ⟨response_JSON c hc _ _, rfl⟩
  · intro c task hc hb huid htid htitle hdesc hstatus hdate
    have hupdate : taskHandler d updateTask c st
        = (c.JSON 400 (.error "due_date must be ISO 8601 format (RFC3339)"), st) := by
      rw [taskHandler_of_ne d updateTask c st huid]
      unfold updateTask
      rw [getParam_of_ne c "task_id" htid]
      dsimp only
      rw [hb]
      dsimp only
      rw [if_neg (titleOk_not_bad htitle), if_neg (descOk_not_bad hdesc)]
      simp only [hstatus, hdate, Bool.not_true, Bool.not_false, Bool.false_eq_true, if_false,
        if_true, StatusBadRequest]
    rw [hupdate]
    exact ⟨response_JSON c hc _ _, rfl⟩

/-- Witness for C8: the due date "not-a-date" of the test suite, on
`POST /users/alice/tasks` and on `PUT /users/alice/tasks/t1`. -/
theorem due_date_rule_witness :
    (taskHandler sqlite (createTask uuid0)
        (Context.new [("user_id", alice)] []
          (.ok ⟨"", "Test Task", "desc", "not-a-date", "pending", ""⟩))
        store1).1.response
      = (400, [.error "due_date must be ISO 8601 format (RFC3339)"])
    ∧ (taskHandler sqlite updateTask
        (Context.new [("user_id", alice), ("task_id", "t1")] []
          (.ok ⟨"", "Updated Task", "desc", "not-a-date", "pending", ""⟩))
        store1).1.response
      = (400, [.error "due_date must be ISO 8601 format (RFC3339)"]) :=
  have h := due_date_rule sqlite uuid0 store1
  ⟨(h.2.2.2.2.2.2.2.1 (Context.new [("user_id", alice)] []
      (.ok ⟨"", "Test Task", "desc", "not-a-date", "pending", ""⟩))
      ⟨"", "Test Task", "desc", "not-a-date", "pending", ""⟩
      rfl rfl (by decide) (by decide) (by decide) (by decide) (by decide)).1,
   (h.2.2.2.2.2.2.2.2 (Context.new [("user_id", alice), ("task_id", "t1")] []
      (.ok ⟨"", "Updated Task", "desc", "not-a-date", "pending", ""⟩))
      ⟨"", "Updated Task", "desc", "not-a-date", "pending", ""⟩
      rfl rfl (by decide) (by decide) (by decide) (by decide) (by decide) (by decide)).1⟩

/-- Counterexample to C8 as stated: "2025-12-31T1:00:00Z", whose hour has a
single digit, is accepted by `isValidISO8601` although it is not a
date-time of the strict profile. -/
theorem due_date_rule_counterexample :
    isValidISO8601 "2025-12-31T1:00:00Z" = true
    ∧ ¬ DateTimeForm strictProfile "2025-12-31T1:00:00Z".data :=
  ⟨by decide, one_digit_hour_not_strict⟩

end C8

/-! ## Lemmas on inserting a task -/

section CreateLemmas
open SQLiteDB

theorem createTask_of_fresh (u : UUID) (s : Store) (t : Task)
    (h : ∀ r ∈ s.tasks, r.ID ≠ u.String) :
    CreateTask u s t
      = (⟨s.users, s.tasks ++ [{ t with ID := u.String }]⟩, { t with ID := u.String }, none) := by
  have hany : ¬ (s.tasks.any (fun r => r.ID == u.String) = true) := by
    rw [List.any_eq_true]
    rintro ⟨r, hr, hid⟩
    exact h r hr (by simpa using hid)
  unfold CreateTask
  simp [hany]

theorem createTask_of_clash (u : UUID) (s : Store) (t : Task)
    (h : ∃ r ∈ s.tasks, r.ID = u.String) :
    CreateTask u s t
      = (s, { t with ID := u.String }, some (.other "UNIQUE constraint failed: tasks.id")) := by
  have hany : s.tasks.any (fun r => r.ID == u.String) = true := by
    rw [List.any_eq_true]
    obtain ⟨r, hr, hid⟩ := h
    exact ⟨r, hr, by simpa using hid⟩
  unfold CreateTask
  simp [hany]

theorem getTask_of_appended (s : Store) (t : Task) (h : ∀ r ∈ s.tasks, r.ID ≠ t.ID) :
    GetTask ⟨s.users, s.tasks ++ [t]⟩ t.ID = .ok t := by
  have hfind : s.tasks.find? (fun r => r.ID == t.ID) = none := by
    rw [List.find?_eq_none]
    intro r hr
    simpa using h r hr
  simp [GetTask, List.find?_append, hfind]

end CreateLemmas

/-! ## C11: deleting a missing record through the handlers -/

section C11
open api SQLiteDB

/-- C11: on the SQLite database, in every state: for every request with a
`user_id` that no user row has, the delete-user handler answers 500 with
"user not found"; for every request with a `user_id` and a `task_id` that
no task row has together, the delete-task handler answers 500 with "task
not found"; neither answers 200 and the database is left as it was. -/
theorem delete_missing_answers_500 (s : Store) :
    (∀ (β : Type) (c : Context β), c.written = [] → c.Param "user_id" ≠ "" →
        (∀ r ∈ s.users, r.ID ≠ c.Param "user_id") →
        (deleteUserHandler (NewUserService sqlite) c s).1.response
            = (500, [.error "user not found"])
        ∧ (deleteUserHandler (NewUserService sqlite) c s).1.status ≠ 200
        ∧ (deleteUserHandler (NewUserService sqlite) c s).2 = s)
    ∧ (∀ (β : Type) (c : Context β), c.written = [] →
        c.Param "user_id" ≠ "" → c.Param "task_id" ≠ "" →
        (∀ r ∈ s.tasks, ¬ (r.ID = c.Param "task_id" ∧ r.UserID = c.Param "user_id")) →
        (taskHandler sqlite deleteTask c s).1.response = (500, [.error "task not found"])
        ∧ (taskHandler sqlite deleteTask c s).1.status ≠ 200
        ∧ (taskHandler sqlite deleteTask c s).2 = s) := by
  constructor
  · intro β c hc huid h
    have hdel : (NewUserService sqlite).Delete s (c.Param "user_id")
        = (s, some .ErrUserNotFound) := deleteUser_of_no_row h
    rw [deleteUserHandler_error sqlite c s s .ErrUserNotFound huid hdel]
    have hr := response_JSON c hc StatusInternalServerError (.error Error.ErrUserNotFound.Error)
    refine ⟨hr, ?_, rfl⟩
    have : (c.JSON StatusInternalServerError (.error Error.ErrUserNotFound.Error)).status = 500 :=
      congrArg Prod.fst hr
    rw [this]
    decide
  · intro β c hc huid htid h
    have hno : ∀ r ∈ s.tasks,
        (r.ID == c.Param "task_id" && r.UserID == c.Param "user_id") = false := by
      intro r hr
      simpa using h r hr
    have hdel : (NewTaskService sqlite (c.Param "user_id")).Delete s (c.Param "task_id")
        = (s, some .ErrTaskNotFound) := deleteTask_of_no_hit hno
    rw [taskHandler_of_ne sqlite deleteTask c s huid,
      deleteTask_error c _ s s .ErrTaskNotFound htid hdel]
    have hr := response_JSON c hc StatusInternalServerError (.error Error.ErrTaskNotFound.Error)
    refine ⟨hr, ?_, rfl⟩
    have : (c.JSON StatusInternalServerError (.error Error.ErrTaskNotFound.Error)).status = 500 :=
      congrArg Prod.fst hr
    rw [this]
    decide

/-- Witness for C11: the requests of the test suite, on `store1`:
`DELETE /users/non-existent-id` and
`DELETE /users/alice/tasks/non-existent-id`. -/
theorem delete_missing_answers_500_witness :
    (deleteUserHandler (NewUserService sqlite)
        (Context.new [("user_id", "non-existent-id")] [] noBody) store1).1.response
      = (500, [.error "user not found"])
    ∧ (taskHandler sqlite deleteTask
        (Context.new [("user_id", alice), ("task_id", "non-existent-id")] [] noBody)
        store1).1.response = (500, [.error "task not found"]) :=
  ⟨((delete_missing_answers_500 store1).1 Unit
      (Context.new [("user_id", "non-existent-id")] [] noBody)
      rfl (by decide) (by decide)).1,
   ((delete_missing_answers_500 store1).2 Unit
      (Context.new [("user_id", alice), ("task_id", "non-existent-id")] [] noBody)
      rfl (by decide) (by decide) (by decide)).1⟩

end C11

/-! ## C12: the owner of a created task -/

section C12
open SQLiteDB

/-- C12: for a service bound to user `uid` on the SQLite database and any
incoming task `t`, whatever `t.UserID` is: the record `Create` hands back
has `UserID = uid`; when the insert succeeds, exactly one row is added, it
is `t` with the new id and `UserID = uid`, and `GetTask` on the new id
returns it; when the insert fails nothing is stored. -/
theorem create_forces_owner (uid : String) (u : UUID) (s : Store) (t : Task) :
    ((NewTaskService sqlite uid).Create u s t).2.1.UserID = uid
    ∧ ((NewTaskService sqlite uid).Create u s t).2.1
        = ⟨u.String, t.Title, t.Description, t.DueDate, t.Status, uid⟩
    ∧ (((NewTaskService sqlite uid).Create u s t).2.2 = none →
        ((NewTaskService sqlite uid).Create u s t).1.tasks
            = s.tasks ++ [⟨u.String, t.Title, t.Description, t.DueDate, t.Status, uid⟩]
        ∧ GetTask ((NewTaskService sqlite uid).Create u s t).1 u.String
            = .ok ⟨u.String, t.Title, t.Description, t.DueDate, t.Status, uid⟩)
    ∧ (((NewTaskService sqlite uid).Create u s t).2.2 ≠ none →
        ((NewTaskService sqlite uid).Create u s t).1 = s)
    ∧ (((NewTaskService sqlite uid).Create u s t).2.2 = none ↔ ∀ r ∈ s.tasks, r.ID ≠ u.String) := by
  have hcreate : (NewTaskService sqlite uid).Create u s t
      = CreateTask u s { t with UserID := uid } := rfl
  rw [hcreate]
  by_cases h : ∀ r ∈ s.tasks, r.ID ≠ u.String
  · rw [createTask_of_fresh u s _ h]
    refine ⟨rfl, rfl, fun _ => ⟨rfl, ?_⟩, fun hne => absurd rfl hne, ⟨fun _ => h, fun _ => rfl⟩⟩
    exact getTask_of_appended s ⟨u.String, t.Title, t.Description, t.DueDate, t.Status, uid⟩ h
  · have hclash : ∃ r ∈ s.tasks, r.ID = u.String := by
      by_contra hno
      exact h (fun r hr hid => hno ⟨r, hr, hid⟩)
    rw [createTask_of_clash u s _ hclash]
    refine ⟨rfl, rfl, fun hnone => ?_, fun _ => rfl, ⟨fun hnone => ?_, fun hall => absurd hall h⟩⟩
    · simp at hnone
    · simp at hnone

end C12

/-! ## C13: scoped, filtered listing -/

section C13
open SQLiteDB

/-- C13: on the SQLite database, `List(status)` of a service bound to `uid`
succeeds and returns the stored rows whose `user_id` is `uid`, all of them
when `status` is empty and those with that exact status otherwise: a task
is in the result exactly when it is stored, owned by `uid` and passes the
filter; every returned task is owned by `uid`; the call has no effect on
the database (it only computes a result from it). -/
theorem list_scoped_filtered (s : Store) (uid status : String) :
    (NewTaskService sqlite uid).List s status
        = .ok (s.tasks.filter (fun r => r.UserID == uid && (status == "" || r.Status == status)))
    ∧ (∀ res, (NewTaskService sqlite uid).List s status = .ok res →
        (∀ t, t ∈ res ↔ (t ∈ s.tasks ∧ t.UserID = uid ∧ (status = "" ∨ t.Status = status)))
        ∧ (∀ t ∈ res, t.UserID = uid)
        ∧ (status = "" → res.Perm (s.tasks.filter (fun r => r.UserID == uid)))
        ∧ (status ≠ "" →
            res.Perm (s.tasks.filter (fun r => r.UserID == uid && r.Status == status)))) := by
  have hlist : (NewTaskService sqlite uid).List s status
      = .ok (s.tasks.filter (fun r => r.UserID == uid && (status == "" || r.Status == status))) := by
    show ListTasks s uid status = _
    unfold ListTasks
    by_cases h : status = ""
    · simp [h]
    · have hb : (status == "") = false := by simpa using h
      simp [hb]
  refine ⟨hlist, ?_⟩
  intro res hres
  rw [hlist] at hres
  have hres' : res = s.tasks.filter
      (fun r => r.UserID == uid && (status == "" || r.Status == status)) := by
    injection hres with h
    exact h.symm
  subst hres'
  refine ⟨?_, ?_, ?_, ?_⟩
  · intro t
    simp [List.mem_filter]
  · intro t ht
    have := (List.mem_filter.mp ht).2
    simp only [Bool.and_eq_true, beq_iff_eq] at this
    exact this.1
  · intro h
    subst h
    simp
  · intro h
    have hb : (status == "") = false := by simpa using h
    simp [hb]

end C13

/-! ## C14: the status at the storage layer -/

section C14
open SQLiteDB

/-- C14 (as amended): the storage layer does not restrict the status.  In
every state of the database, the empty one included, and for every task,
whatever its status: `CreateTask` succeeds whenever the new id is not
taken, and the row it stores carries the status as given; and when the
database satisfies the schema, `UpdateTask` with a non-empty status on a
row matching id and user id succeeds and stores that status. -/
theorem storage_keeps_any_status (u : UUID) (s : Store) :
    (∀ t : Task, (∀ r ∈ s.tasks, r.ID ≠ u.String) →
        (CreateTask u s t).2.2 = none
        ∧ (CreateTask u s t).1.tasks
            = s.tasks ++ [⟨u.String, t.Title, t.Description, t.DueDate, t.Status, t.UserID⟩]
        ∧ GetTask (CreateTask u s t).1 u.String
            = .ok ⟨u.String, t.Title, t.Description, t.DueDate, t.Status, t.UserID⟩)
    ∧ (∀ old p : Task, s.WF → old ∈ s.tasks → p.ID = old.ID → p.UserID = old.UserID →
        p.Status ≠ "" →
        (UpdateTask s p).2.2 = none
        ∧ (∃ row, GetTask (UpdateTask s p).1 old.ID = .ok row ∧ row.Status = p.Status)) := by
  constructor
  · intro t hfresh
    rw [createTask_of_fresh u s t hfresh]
    exact ⟨rfl, rfl, getTask_of_appended s
      ⟨u.String, t.Title, t.Description, t.DueDate, t.Status, t.UserID⟩ hfresh⟩
  · intro old p hs hold hid hu hstatus
    rw [updateTask_of_hit s hs old hold p hid hu (Or.inr (Or.inr (Or.inr hstatus)))]
    refine ⟨rfl, patched old p, getTask_of_patched s hs old hold p, ?_⟩
    simp [patched, hstatus]

/-- Witness for C14: the status "bogus" is stored by a create into the
empty database, by a create into `store1` and by an update of `task1`. -/
theorem storage_keeps_any_status_witness :
    GetTask (CreateTask uuid0 Store.empty ⟨"", "Title", "", "", "bogus", alice⟩).1 uuid0.String
        = .ok ⟨uuid0.String, "Title", "", "", "bogus", alice⟩
    ∧ GetTask (CreateTask uuid0 store1 ⟨"", "Title", "", "", "bogus", alice⟩).1 uuid0.String
        = .ok ⟨uuid0.String, "Title", "", "", "bogus", alice⟩
    ∧ (UpdateTask store1 ⟨"t1", "", "", "", "bogus", alice⟩).2.2 = none :=
  ⟨((storage_keeps_any_status uuid0 Store.empty).1 ⟨"", "Title", "", "", "bogus", alice⟩
      (by decide)).2.2,
   ((storage_keeps_any_status uuid0 store1).1 ⟨"", "Title", "", "", "bogus", alice⟩
      (by decide)).2.2,
   ((storage_keeps_any_status uuid0 store1).2 task1 ⟨"t1", "", "", "", "bogus", alice⟩
      (by decide) (by decide) rfl rfl (by decide)).1⟩

/-- Counterexample to C14 as stated: a task with the status "bogus" is
created in the empty database without error and is stored with that
status; an update of `task1` to the status "bogus" succeeds too. -/
theorem storage_keeps_any_status_counterexample :
    api.isValidStatus "bogus" = false
    ∧ (CreateTask uuid0 Store.empty ⟨"", "Title", "", "", "bogus", alice⟩).2.2 = none
    ∧ (CreateTask uuid0 Store.empty ⟨"", "Title", "", "", "bogus", alice⟩).1.tasks
        = [⟨"00000000-0000-0000-0000-000000000000", "Title", "", "", "bogus", alice⟩]
    ∧ (UpdateTask store1 ⟨"t1", "", "", "", "bogus", alice⟩).2.2 = none
    ∧ (UpdateTask store1 ⟨"t1", "", "", "", "bogus", alice⟩).1.tasks
        = [⟨"t1", "Test Task", "This is a test task", "2023-12-31T10:00:00Z", "bogus", alice⟩,
            task2] := by
  decide

end C14

/-! ## C16: the empty patch -/

section C16
open SQLiteDB

/-- C16: for every task whose title, description, due date and status are
all empty, `UpdateTask` returns the error "no fields to update", which is
not `ErrTaskNotFound`, hands the record back as it was and leaves the
database unchanged, whatever rows the database holds. -/
theorem empty_patch_generic_error (s : Store) (p : Task)
    (h1 : p.Title = "") (h2 : p.Description = "") (h3 : p.DueDate = "") (h4 : p.Status = "") :
    UpdateTask s p = (s, p, some (.other "no fields to update"))
    ∧ (UpdateTask s p).2.2 ≠ some .ErrTaskNotFound
    ∧ (UpdateTask s p).1 = s := by
  have hupd : updates p = [] := (updates_eq_nil_iff p).mpr ⟨h1, h2, h3, h4⟩
  rw [updateTask_of_no_fields hupd]
  exact ⟨rfl, by simp, rfl⟩

/-- Witness for C16: the empty patch on the existing row `t1` of `alice`
and on an id that matches no row. -/
theorem empty_patch_generic_error_witness :
    UpdateTask store1 ⟨"t1", "", "", "", "", alice⟩
        = (store1, ⟨"t1", "", "", "", "", alice⟩, some (.other "no fields to update"))
    ∧ UpdateTask store1 ⟨"missing", "", "", "", "", alice⟩
        = (store1, ⟨"missing", "", "", "", "", alice⟩, some (.other "no fields to update")) :=
  ⟨(empty_patch_generic_error store1 ⟨"t1", "", "", "", "", alice⟩ rfl rfl rfl rfl).1,
   (empty_patch_generic_error store1 ⟨"missing", "", "", "", "", alice⟩ rfl rfl rfl rfl).1⟩

end C16

/-! ## C20: deleting a user and the tasks table -/

section C20
open SQLiteDB

/-- C20: `DeleteUser` leaves the tasks table exactly as it was, on every
database and for every id, also through `UserService.Delete`; so every
task of a user is still stored after that user has been deleted; and
"every stored task's user id names a stored user" is not preserved: it
holds of `store1` and fails after `alice` has been deleted from it. -/
theorem deleteUser_keeps_tasks (s : Store) (uid : String) :
    (DeleteUser s uid).1.tasks = s.tasks
    ∧ ((NewUserService sqlite).Delete s uid).1.tasks = s.tasks
    ∧ (∀ t ∈ s.tasks, t.UserID = uid → t ∈ (DeleteUser s uid).1.tasks)
    ∧ (∀ r ∈ (DeleteUser s uid).1.users, r.ID ≠ uid)
    ∧ (ownersExist store1 = true
        ∧ (DeleteUser store1 alice).2 = none
        ∧ task1 ∈ (DeleteUser store1 alice).1.tasks
        ∧ task1.UserID = alice
        ∧ ownersExist (DeleteUser store1 alice).1 = false) := by
  have htasks : (DeleteUser s uid).1.tasks = s.tasks := by
    rw [deleteUser_fst]
  refine ⟨htasks, htasks, ?_, no_user_after_delete s uid, by decide⟩
  intro t ht _
  rw [htasks]
  exact ht

end C20

/-! ## The handlers' checks as the ordered rules -/

section Rules
open api

variable {σ : Type}

theorem lenBad_of_not_ok {s : String} (h : nameLengthOk s = false) :
    (decide (RuneCountInString (TrimSpace s) < minNameLen)
        || decide (RuneCountInString (TrimSpace s) > maxNameLen)) = true := by
  rw [lenBad_iff]
  simp only [nameLengthOk, Bool.and_eq_false_iff, decide_eq_false_iff_not] at h
  omega

theorem not_lenBad_of_ok {s : String} (h : nameLengthOk s = true) :
    ¬ ((decide (RuneCountInString (TrimSpace s) < minNameLen)
        || decide (RuneCountInString (TrimSpace s) > maxNameLen)) = true) := by
  simp only [nameLengthOk, Bool.and_eq_true, decide_eq_true_eq] at h
  exact titleOk_not_bad h

/-- The first failing rule of a task body, spelled out. -/
theorem firstFailure_taskRules (t : Task) :
    firstFailure taskRules t =
      if nameLengthOk t.Title = false then some "title must be between 2 and 50 characters"
      else if ¬ RuneCountInString (TrimSpace t.Description) ≤ 200 then
        some "description must be at most 200 characters"
      else if isValidStatus t.Status = false then some "invalid status"
      else if isValidISO8601 t.DueDate = false then
        some "due_date must be ISO 8601 format (RFC3339)"
      else none := by
  by_cases h1 : nameLengthOk t.Title = true <;>
    by_cases h2 : RuneCountInString (TrimSpace t.Description) ≤ 200 <;>
    by_cases h3 : isValidStatus t.Status = true <;>
    by_cases h4 : isValidISO8601 t.DueDate = true <;>
    simp [firstFailure, taskRules, List.find?, h1, h2, h3, h4]

/-- The first failing rule of a user body, spelled out. -/
theorem firstFailure_userRules (u : User) :
    firstFailure userRules u =
      if nameLengthOk u.Name = false then some "name must be between 2 and 50 characters"
      else if TrimSpace u.Email = "" then some "email is required"
      else none := by
  by_cases h1 : nameLengthOk u.Name = true <;> by_cases h2 : TrimSpace u.Email = ""
  · simp [firstFailure, userRules, List.find?, h1, h2]
  · have hb2 : (TrimSpace u.Email != "") = true := bne_iff_ne.mpr h2
    simp [firstFailure, userRules, List.find?, h1, h2, hb2]
  · simp [firstFailure, userRules, List.find?, h1, h2]
  · simp [firstFailure, userRules, List.find?, h1, h2]

/-- The `createTask` action in terms of the rules: the first failing rule
is answered with 400, and only a body that passes all of them reaches the
service. -/
theorem createTask_by_rules (u : UUID) (c : Context Task) (ts : TaskService σ) (st : σ)
    (task : Task) (hb : c.ShouldBindJSON = .ok task) :
    createTask u c ts st =
      match firstFailure taskRules task with
      | some msg => (c.JSON 400 (.error msg), st)
      | none =>
        match ts.Create u st task with
        | (st, _, some err) => (c.JSON 500 (.error err.Error), st)
        | (st, task, none) => (c.JSON 201 (.task task), st) := by
  rw [firstFailure_taskRules]
  unfold createTask
  rw [hb]
  dsimp only
  by_cases h1 : nameLengthOk task.Title = true
  · rw [if_neg (not_lenBad_of_ok h1)]
    by_cases h2 : RuneCountInString (TrimSpace task.Description) ≤ 200
    · rw [if_neg (descOk_not_bad h2)]
      by_cases h3 : isValidStatus task.Status = true
      · by_cases h4 : isValidISO8601 task.DueDate = true
        · simp [h1, h2, h3, h4, StatusInternalServerError, StatusCreated]
        · simp [h1, h2, h3, h4, StatusBadRequest]
      · simp [h1, h2, h3, StatusBadRequest]
    · have : RuneCountInString (TrimSpace task.Description) > maxDescLen := by
        simp only [maxDescLen]; omega
      rw [if_pos this]
      simp [h1, h2, StatusBadRequest]
  · have h1' : nameLengthOk task.Title = false := by simpa using h1
    rw [if_pos (lenBad_of_not_ok h1')]
    simp [h1', StatusBadRequest]

/-- The `updateTask` action in terms of the rules, for a request whose
`task_id` is present. -/
theorem updateTask_by_rules (c : Context Task) (ts : TaskService σ) (st : σ)
    (task : Task) (hb : c.ShouldBindJSON = .ok task) (htid : c.Param "task_id" ≠ "") :
    updateTask c ts st =
      match firstFailure taskRules task with
      | some msg => (c.JSON 400 (.error msg), st)
      | none =>
        match ts.Update st { task with ID := c.Param "task_id" } with
        | (st, _, some err) => (c.JSON 500 (.error err.Error), st)
        | (st, task, none) => (c.JSON 200 (.task task), st) := by
  rw [firstFailure_taskRules]
  unfold updateTask
  rw [getParam_of_ne c "task_id" htid]
  dsimp only
  rw [hb]
  dsimp only
  by_cases h1 : nameLengthOk task.Title = true
  · rw [if_neg (not_lenBad_of_ok h1)]
    by_cases h2 : RuneCountInString (TrimSpace task.Description) ≤ 200
    · rw [if_neg (descOk_not_bad h2)]
      by_cases h3 : isValidStatus task.Status = true
      · by_cases h4 : isValidISO8601 task.DueDate = true
        · simp [h1, h2, h3, h4, StatusInternalServerError, StatusOK]
        · simp [h1, h2, h3, h4, StatusBadRequest]
      · simp [h1, h2, h3, StatusBadRequest]
    · have : RuneCountInString (TrimSpace task.Description) > maxDescLen := by
        simp only [maxDescLen]; omega
      rw [if_pos this]
      simp [h1, h2, StatusBadRequest]
  · have h1' : nameLengthOk task.Title = false := by simpa using h1
    rw [if_pos (lenBad_of_not_ok h1')]
    simp [h1', StatusBadRequest]

/-- The `createUserHandler` handler in terms of the rules. -/
theorem createUserHandler_by_rules (d : DB σ) (u : UUID) (c : Context User) (st : σ)
    (user : User) (hb : c.ShouldBindJSON = .ok user) :
    createUserHandler (NewUserService d) u c st =
      match firstFailure userRules user with
      | some msg => (c.JSON 400 (.error msg), st)
      | none =>
        match (NewUserService d).Create u st user with
        | (st, _, some err) => (c.JSON 500 (.error err.Error), st)
        | (st, user, none) => (c.JSON 201 (.user user), st) := by
  rw [firstFailure_userRules]
  unfold createUserHandler
  rw [hb]
  dsimp only
  by_cases h1 : nameLengthOk user.Name = true
  · rw [if_neg (not_lenBad_of_ok h1)]
    by_cases h2 : TrimSpace user.Email = ""
    · simp [h1, h2, StatusBadRequest]
    · simp [h1, h2, StatusInternalServerError, StatusCreated]
  · have h1' : nameLengthOk user.Name = false := by simpa using h1
    rw [if_pos (lenBad_of_not_ok h1')]
    simp [h1', StatusBadRequest]

theorem status_JSON {β : Type} (c : Context β) (hc : c.written = []) (code : Nat)
    (obj : Payload) : (c.JSON code obj).status = code :=
  congrArg Prod.fst (response_JSON c hc code obj)

end Rules

/-! ## C15: the first failing rule is the one reported -/

section C15
open api

variable {σ : Type}

/-- C15: on any database, for every request whose body binds.  When some
rule of the task body fails, `createTask` (any request with a `user_id`)
and `updateTask` (any request with a `user_id` and a `task_id`) answer 400
with the message of the first failing rule in the order title,
description, status, due date, with that one message only, and leave the
state alone; when some rule of the user body fails, `createUserHandler`
answers 400 with the message of the first failing rule in the order name,
email.  A body that passes every rule is not answered 400.  With a good
name the email rule fails exactly when the email is empty once trimmed; a
user with empty name and empty email gets the name message. -/
theorem first_failure_order (d : DB σ) (u : UUID) (st : σ) :
    (∀ (c : Context Task) (task : Task) (msg : String), c.written = [] →
        c.ShouldBindJSON = .ok task → c.Param "user_id" ≠ "" →
        firstFailure taskRules task = some msg →
        (taskHandler d (createTask u) c st).1.response = (400, [.error msg])
        ∧ (taskHandler d (createTask u) c st).2 = st)
    ∧ (∀ (c : Context Task) (task : Task) (msg : String), c.written = [] →
        c.ShouldBindJSON = .ok task → c.Param "user_id" ≠ "" → c.Param "task_id" ≠ "" →
        firstFailure taskRules task = some msg →
        (taskHandler d updateTask c st).1.response = (400, [.error msg])
        ∧ (taskHandler d updateTask c st).2 = st)
    ∧ (∀ (c : Context User) (user : User) (msg : String), c.written = [] →
        c.ShouldBindJSON = .ok user →
        firstFailure userRules user = some msg →
        (createUserHandler (NewUserService d) u c st).1.response = (400, [.error msg])
        ∧ (createUserHandler (NewUserService d) u c st).2 = st)
    ∧ (∀ (c : Context Task) (task : Task), c.written = [] →
        c.ShouldBindJSON = .ok task → c.Param "user_id" ≠ "" →
        firstFailure taskRules task = none →
        (taskHandler d (createTask u) c st).1.status ≠ 400)
    ∧ (∀ (c : Context Task) (task : Task), c.written = [] →
        c.ShouldBindJSON = .ok task → c.Param "user_id" ≠ "" → c.Param "task_id" ≠ "" →
        firstFailure taskRules task = none →
        (taskHandler d updateTask c st).1.status ≠ 400)
    ∧ (∀ (c : Context User) (user : User), c.written = [] →
        c.ShouldBindJSON = .ok user →
        firstFailure userRules user = none →
        (createUserHandler (NewUserService d) u c st).1.status ≠ 400)
    ∧ (∀ user : User, nameLengthOk user.Name = true →
        (firstFailure userRules user = some "email is required" ↔ TrimSpace user.Email = ""))
    ∧ firstFailure userRules ⟨"", "", ""⟩ = some "name must be between 2 and 50 characters"
    ∧ firstFailure taskRules ⟨"", "", String.mk (List.replicate 201 'a'), "never", "bogus", ""⟩
        = some "title must be between 2 and 50 characters" := by
  refine ⟨?_, ?_, ?_, ?_, ?_, ?_, ?_, by decide, by decide⟩
  · intro c task msg hc hb huid h
    rw [taskHandler_of_ne d (createTask u) c st huid, createTask_by_rules u c _ st task hb, h]
    exact ⟨response_JSON c hc _ _, rfl⟩
  · intro c task msg hc hb huid htid h
    rw [taskHandler_of_ne d updateTask c st huid, updateTask_by_rules c _ st task hb htid, h]
    exact ⟨response_JSON c hc _ _, rfl⟩
  · intro c user msg hc hb h
    rw [createUserHandler_by_rules d u c st user hb, h]
    exact ⟨response_JSON c hc _ _, rfl⟩
  · intro c task hc hb huid h
    rw [taskHandler_of_ne d (createTask u) c st huid, createTask_by_rules u c _ st task hb, h]
    dsimp only
    split
    · rw [status_JSON c hc]; decide
    · rw [status_JSON c hc]; decide
  · intro c task hc hb huid htid h
    rw [taskHandler_of_ne d updateTask c st huid, updateTask_by_rules c _ st task hb htid, h]
    dsimp only
    split
    · rw [status_JSON c hc]; decide
    · rw [status_JSON c hc]; decide
  · intro c user hc hb h
    rw [createUserHandler_by_rules d u c st user hb, h]
    dsimp only
    split
    · rw [status_JSON c hc]; decide
    · rw [status_JSON c hc]; decide
  · intro user h
    rw [firstFailure_userRules]
    by_cases h2 : TrimSpace user.Email = "" <;> simp [h, h2]

set_option maxRecDepth 8000 in
/-- Witness for C15: a task body whose four fields are all invalid is
answered with the title message by `POST /users/alice/tasks` and by
`PUT /users/alice/tasks/t1`; a user body with empty name and email is
answered with the name message by `POST /users`. -/
theorem first_failure_order_witness :
    (taskHandler sqlite (createTask uuid0)
        (Context.new [("user_id", alice)] []
          (.ok ⟨"", "", String.mk (List.replicate 201 'a'), "never", "bogus", ""⟩))
        store1).1.response
      = (400, [.error "title must be between 2 and 50 characters"])
    ∧ (taskHandler sqlite updateTask
        (Context.new [("user_id", alice), ("task_id", "t1")] []
          (.ok ⟨"", "", String.mk (List.replicate 201 'a'), "never", "bogus", ""⟩))
        store1).1.response
      = (400, [.error "title must be between 2 and 50 characters"])
    ∧ (createUserHandler (NewUserService sqlite) uuid0
        (Context.new [] [] (.ok ⟨"", "", ""⟩)) store1).1.response
      = (400, [.error "name must be between 2 and 50 characters"]) :=
  have h := first_failure_order sqlite uuid0 store1
  ⟨(h.1 (Context.new [("user_id", alice)] []
      (.ok ⟨"", "", String.mk (List.replicate 201 'a'), "never", "bogus", ""⟩))
      ⟨"", "", String.mk (List.replicate 201 'a'), "never", "bogus", ""⟩
      "title must be between 2 and 50 characters" rfl rfl (by decide) (by decide)).1,
   (h.2.1 (Context.new [("user_id", alice), ("task_id", "t1")] []
      (.ok ⟨"", "", String.mk (List.replicate 201 'a'), "never", "bogus", ""⟩))
      ⟨"", "", String.mk (List.replicate 201 'a'), "never", "bogus", ""⟩
      "title must be between 2 and 50 characters" rfl rfl (by decide) (by decide)
      (by decide)).1,
   (h.2.2.1 (Context.new [] [] (.ok ⟨"", "", ""⟩)) ⟨"", "", ""⟩
      "name must be between 2 and 50 characters" rfl rfl (by decide)).1⟩

end C15

/-! ## C17: how the other errors are answered -/

section C17
open api

variable {σ : Type}

theorem listUsersHandler_error {β : Type} (d : DB σ) (c : Context β) (st : σ) (e : Error)
    (h : (NewUserService d).List st = .error e) :
    listUsersHandler (NewUserService d) c st
      = (c.JSON StatusInternalServerError (.error e.Error), st) := by
  unfold listUsersHandler
  rw [h]

theorem listTasks_error {β : Type} (c : Context β) (ts : TaskService σ) (st : σ) (e : Error)
    (h : ts.List st (c.Query "status") = .error e) :
    listTasks c ts st = (c.JSON StatusInternalServerError (.error e.Error), st) := by
  unfold listTasks
  dsimp only
  rw [h]

/-- C17 (as amended): on any database, when the service call returns an
error `e` that is neither `ErrUserNotFound` nor `ErrTaskNotFound`, each
handler answers as follows, for every request its route can deliver.  With
the message of `e` and status 500: create-user (body binds and passes
validation), list-users (any request), delete-user (any request with a
`user_id`), create-task (a `user_id`, body binds and passes validation),
list-tasks (a `user_id`), update-task (a `user_id` and a `task_id`, body
binds and passes validation), delete-task (a `user_id` and a `task_id`).
With the message of `e` and status 404: get-user (a `user_id`) and get-task
(a `user_id` and a `task_id`). -/
theorem other_errors_translation (d : DB σ) (u : UUID) (st : σ) (e : Error)
    (he : e ≠ .ErrUserNotFound ∧ e ≠ .ErrTaskNotFound) :
    (∀ (c : Context User) (user : User) (st' : σ) (user' : User), c.written = [] →
        c.ShouldBindJSON = .ok user → firstFailure userRules user = none →
        (NewUserService d).Create u st user = (st', user', some e) →
        (createUserHandler (NewUserService d) u c st).1.response = (500, [.error e.Error]))
    ∧ (∀ (β : Type) (c : Context β), c.written = [] →
        (NewUserService d).List st = .error e →
        (listUsersHandler (NewUserService d) c st).1.response = (500, [.error e.Error]))
    ∧ (∀ (β : Type) (c : Context β) (st' : σ), c.written = [] → c.Param "user_id" ≠ "" →
        (NewUserService d).Delete st (c.Param "user_id") = (st', some e) →
        (deleteUserHandler (NewUserService d) c st).1.response = (500, [.error e.Error]))
    ∧ (∀ (c : Context Task) (task : Task) (st' : σ) (task' : Task), c.written = [] →
        c.ShouldBindJSON = .ok task → firstFailure taskRules task = none →
        c.Param "user_id" ≠ "" →
        (NewTaskService d (c.Param "user_id")).Create u st task = (st', task', some e) →
        (taskHandler d (createTask u) c st).1.response = (500, [.error e.Error]))
    ∧ (∀ (β : Type) (c : Context β), c.written = [] → c.Param "user_id" ≠ "" →
        (NewTaskService d (c.Param "user_id")).List st (c.Query "status") = .error e →
        (taskHandler d listTasks c st).1.response = (500, [.error e.Error]))
    ∧ (∀ (c : Context Task) (task : Task) (st' : σ) (task' : Task), c.written = [] →
        c.ShouldBindJSON = .ok task → firstFailure taskRules task = none →
        c.Param "user_id" ≠ "" → c.Param "task_id" ≠ "" →
        (NewTaskService d (c.Param "user_id")).Update st
          { task with ID := c.Param "task_id" } = (st', task', some e) →
        (taskHandler d updateTask c st).1.response = (500, [.error e.Error]))
    ∧ (∀ (β : Type) (c : Context β) (st' : σ), c.written = [] →
        c.Param "user_id" ≠ "" → c.Param "task_id" ≠ "" →
        (NewTaskService d (c.Param "user_id")).Delete st (c.Param "task_id") = (st', some e) →
        (taskHandler d deleteTask c st).1.response = (500, [.error e.Error]))
    ∧ (∀ (β : Type) (c : Context β), c.written = [] → c.Param "user_id" ≠ "" →
        (NewUserService d).Get st (c.Param "user_id") = .error e →
        (getUserHandler (NewUserService d) c st).1.response = (404, [.error e.Error]))
    ∧ (∀ (β : Type) (c : Context β), c.written = [] →
        c.Param "user_id" ≠ "" → c.Param "task_id" ≠ "" →
        (NewTaskService d (c.Param "user_id")).Get st (c.Param "task_id") = .error e →
        (taskHandler d getTask c st).1.response = (404, [.error e.Error])) := by
  have _ := he
  refine ⟨?_, ?_, ?_, ?_, ?_, ?_, ?_, ?_, ?_⟩
  · intro c user st' user' hc hb hv h
    rw [createUserHandler_by_rules d u c st user hb, hv, h]
    exact response_JSON c hc _ _
  · intro β c hc h
    rw [listUsersHandler_error d c st e h]
    exact response_JSON c hc _ _
  · intro β c st' hc huid h
    rw [deleteUserHandler_error d c st st' e huid h]
    exact response_JSON c hc _ _
  · intro c task st' task' hc hb hv huid h
    rw [taskHandler_of_ne d (createTask u) c st huid, createTask_by_rules u c _ st task hb,
      hv, h]
    exact response_JSON c hc _ _
  · intro β c hc huid h
    rw [taskHandler_of_ne d listTasks c st huid, listTasks_error c _ st e h]
    exact response_JSON c hc _ _
  · intro c task st' task' hc hb hv huid htid h
    rw [taskHandler_of_ne d updateTask c st huid, updateTask_by_rules c _ st task hb htid,
      hv, h]
    exact response_JSON c hc _ _
  · intro β c st' hc huid htid h
    rw [taskHandler_of_ne d deleteTask c st huid, deleteTask_error c _ st st' e htid h]
    exact response_JSON c hc _ _
  · intro β c hc huid h
    rw [getUserHandler_error d c st e huid h]
    exact response_JSON c hc _ _
  · intro β c hc huid htid h
    rw [taskHandler_of_ne d getTask c st huid, getTask_error c _ st e htid h]
    exact response_JSON c hc _ _

/-- Witness for C17: on a closed database every statement fails with "sql:
database is closed".  `POST /users`, `GET /users`, `DELETE /users/alice`,
`POST /users/alice/tasks`, `GET /users/alice/tasks`,
`PUT /users/alice/tasks/t1` and `DELETE /users/alice/tasks/t1` answer 500;
`GET /users/alice` and `GET /users/alice/tasks/t1` answer 404. -/
theorem other_errors_translation_witness :
    (createUserHandler (NewUserService closedSqlite) uuid0
        (Context.new [] [] (.ok ⟨"", "Carol", "carol@example.com"⟩))
        store1).1.response = (500, [.error "sql: database is closed"])
    ∧ (listUsersHandler (NewUserService closedSqlite)
        (Context.new [] [] noBody) store1).1.response
        = (500, [.error "sql: database is closed"])
    ∧ (deleteUserHandler (NewUserService closedSqlite)
        (Context.new [("user_id", alice)] [] noBody) store1).1.response
        = (500, [.error "sql: database is closed"])
    ∧ (taskHandler closedSqlite (createTask uuid0)
        (Context.new [("user_id", alice)] [] (.ok task1)) store1).1.response
        = (500, [.error "sql: database is closed"])
    ∧ (taskHandler closedSqlite listTasks
        (Context.new [("user_id", alice)] [] noBody) store1).1.response
        = (500, [.error "sql: database is closed"])
    ∧ (taskHandler closedSqlite updateTask
        (Context.new [("user_id", alice), ("task_id", "t1")] [] (.ok task1))
        store1).1.response = (500, [.error "sql: database is closed"])
    ∧ (taskHandler closedSqlite deleteTask
        (Context.new [("user_id", alice), ("task_id", "t1")] [] noBody)
        store1).1.response = (500, [.error "sql: database is closed"])
    ∧ (getUserHandler (NewUserService closedSqlite)
        (Context.new [("user_id", alice)] [] noBody) store1).1.response
        = (404, [.error "sql: database is closed"])
    ∧ (taskHandler closedSqlite getTask
        (Context.new [("user_id", alice), ("task_id", "t1")] [] noBody)
        store1).1.response = (404, [.error "sql: database is closed"]) :=
  have h := other_errors_translation closedSqlite uuid0 store1 errDBClosed
    ⟨by decide, by decide⟩
  ⟨h.1 (Context.new [] [] (.ok ⟨"", "Carol", "carol@example.com"⟩))
      ⟨"", "Carol", "carol@example.com"⟩ store1 ⟨uuid0.String, "Carol", "carol@example.com"⟩
      rfl rfl (by decide) rfl,
   h.2.1 Unit (Context.new [] [] noBody) rfl rfl,
   h.2.2.1 Unit (Context.new [("user_id", alice)] [] noBody) store1 rfl (by decide) rfl,
   h.2.2.2.1 (Context.new [("user_id", alice)] [] (.ok task1)) task1 store1
      { task1 with ID := uuid0.String, UserID := alice } rfl rfl (by decide) (by decide) rfl,
   h.2.2.2.2.1 Unit (Context.new [("user_id", alice)] [] noBody) rfl (by decide) rfl,
   h.2.2.2.2.2.1 (Context.new [("user_id", alice), ("task_id", "t1")] [] (.ok task1)) task1
      store1 { task1 with ID := "t1", UserID := alice } rfl rfl (by decide) (by decide)
      (by decide) rfl,
   h.2.2.2.2.2.2.1 Unit (Context.new [("user_id", alice), ("task_id", "t1")] [] noBody) store1
      rfl (by decide) (by decide) rfl,
   h.2.2.2.2.2.2.2.1 Unit (Context.new [("user_id", alice)] [] noBody) rfl (by decide) rfl,
   h.2.2.2.2.2.2.2.2 Unit (Context.new [("user_id", alice), ("task_id", "t1")] [] noBody)
      rfl (by decide) (by decide) rfl⟩

/-- Counterexample to C17 as stated: on a closed database `Get` fails
with "sql: database is closed", which is neither not-found error, and the
get-user and get-task handlers answer 404, not 500. -/
theorem other_errors_translation_counterexample :
    (NewUserService closedSqlite).Get store1 alice = .error (.other "sql: database is closed")
    ∧ Error.other "sql: database is closed" ≠ .ErrUserNotFound
    ∧ Error.other "sql: database is closed" ≠ .ErrTaskNotFound
    ∧ (getUserHandler (NewUserService closedSqlite)
        (Context.new [("user_id", alice)] [] noBody) store1).1.response
        = (404, [.error "sql: database is closed"])
    ∧ (taskHandler closedSqlite getTask
        (Context.new [("user_id", alice), ("task_id", "t1")] [] noBody) store1).1.response
        = (404, [.error "sql: database is closed"]) :=
  ⟨rfl, by decide, by decide, by decide, by decide⟩

end C17

/-! ## C18: what a successful update answers -/

section C18
open api SQLiteDB

theorem updateTask_record (s : Store) (p : Task) : (UpdateTask s p).2.1 = p := by
  unfold UpdateTask
  dsimp only
  split
  · rfl
  · split <;> rfl

theorem taskHandler_missing_user {σ β : Type} (d : DB σ) (action : taskAction σ β)
    (c : Context β) (st : σ) (hc : c.written = []) (h : c.Param "user_id" = "") :
    (taskHandler d action c st).1.status = 400 := by
  simp [taskHandler, getParam, h, Context.JSON, Context.Status, hc, StatusBadRequest]

theorem updateTask_missing_task {σ : Type} (c : Context Task) (ts : TaskService σ) (st : σ)
    (hc : c.written = []) (h : c.Param "task_id" = "") :
    (updateTask c ts st).1.status = 400 := by
  simp [updateTask, getParam, h, Context.JSON, Context.Status, hc, StatusBadRequest]

/-- C18: on the SQLite database, an update request whose body binds and
which is answered 200 is answered with exactly one record: the title,
description, due date and status of the body, the id of the path's
`task_id` and the user id of the path's `user_id`.  The record is not read
back from storage: for the body with an empty description sent for `task1`,
the answer carries the empty description while the stored description is
the old one. -/
theorem update_answers_as_sent (s : Store) (c : Context Task) (body : Task)
    (hc : c.written = []) (hb : c.ShouldBindJSON = .ok body)
    (hok : (taskHandler sqlite updateTask c s).1.status = 200) :
    (taskHandler sqlite updateTask c s).1.response
        = (200, [.task ⟨c.Param "task_id", body.Title, body.Description, body.DueDate,
                        body.Status, c.Param "user_id"⟩])
    ∧ ((taskHandler sqlite updateTask
          (Context.new [("user_id", alice), ("task_id", "t1")] []
            (.ok ⟨"", "Updated Task", "", "2025-08-09T15:04:05Z", "done", ""⟩))
          store1).1.response
        = (200, [.task ⟨"t1", "Updated Task", "", "2025-08-09T15:04:05Z", "done", alice⟩])
      ∧ GetTask (taskHandler sqlite updateTask
          (Context.new [("user_id", alice), ("task_id", "t1")] []
            (.ok ⟨"", "Updated Task", "", "2025-08-09T15:04:05Z", "done", ""⟩))
          store1).2 "t1"
        = .ok ⟨"t1", "Updated Task", "This is a test task", "2025-08-09T15:04:05Z", "done",
                alice⟩) := by
  refine ⟨?_, by decide, rfl⟩
  by_cases huid : c.Param "user_id" = ""
  · rw [taskHandler_missing_user sqlite updateTask c s hc huid] at hok
    exact absurd hok (by decide)
  · rw [taskHandler_of_ne sqlite updateTask c s huid] at hok ⊢
    by_cases htid : c.Param "task_id" = ""
    · rw [updateTask_missing_task c _ s hc htid] at hok
      exact absurd hok (by decide)
    · rw [updateTask_by_rules c _ s body hb htid] at hok ⊢
      cases hff : firstFailure taskRules body with
      | some msg =>
        rw [hff] at hok
        dsimp only at hok
        rw [status_JSON c hc] at hok
        exact absurd hok (by decide)
      | none =>
        rw [hff] at hok
        dsimp only at hok ⊢
        have hupd : (NewTaskService sqlite (c.Param "user_id")).Update s
              { body with ID := c.Param "task_id" }
            = UpdateTask s { body with ID := c.Param "task_id", UserID := c.Param "user_id" } :=
          rfl
        rw [hupd] at hok ⊢
        have hrec := updateTask_record s
          { body with ID := c.Param "task_id", UserID := c.Param "user_id" }
        rcases hres : UpdateTask s
            { body with ID := c.Param "task_id", UserID := c.Param "user_id" }
          with ⟨s', t', _ | err⟩
        · rw [hres] at hrec
          dsimp only at hrec
          subst hrec
          exact response_JSON c hc _ _
        · rw [hres] at hok
          dsimp only at hok
          rw [status_JSON c hc] at hok
          exact absurd hok (by decide)

/-- Witness for C18: the update of the test suite on `task1`. -/
theorem update_answers_as_sent_witness :
    (taskHandler sqlite updateTask
        (Context.new [("user_id", alice), ("task_id", "t1")] []
          (.ok ⟨"", "Updated Task", "Updated desc", "2025-08-09T15:04:05Z", "done", ""⟩))
        store1).1.response
      = (200, [.task ⟨"t1", "Updated Task", "Updated desc", "2025-08-09T15:04:05Z", "done",
                      alice⟩]) :=
  (update_answers_as_sent store1
    (Context.new [("user_id", alice), ("task_id", "t1")] []
      (.ok ⟨"", "Updated Task", "Updated desc", "2025-08-09T15:04:05Z", "done", ""⟩))
    ⟨"", "Updated Task", "Updated desc", "2025-08-09T15:04:05Z", "done", ""⟩
    rfl rfl (by decide)).1

end C18

/-! ## C19: the update handler validates like the create handler -/

section C19
open api SQLiteDB

variable {σ : Type}

/-- A body that passes every rule has a title, a status and a due date. -/
theorem nonempty_of_valid (task : Task) (h : firstFailure taskRules task = none) :
    task.Title ≠ "" ∧ task.Status ≠ "" ∧ task.DueDate ≠ "" := by
  rw [firstFailure_taskRules] at h
  by_cases h1 : nameLengthOk task.Title = true
  · by_cases h2 : RuneCountInString (TrimSpace task.Description) ≤ 200
    · by_cases h3 : isValidStatus task.Status = true
      · by_cases h4 : isValidISO8601 task.DueDate = true
        · refine ⟨?_, ?_, ?_⟩
          · intro he; rw [he] at h1; exact absurd h1 (by decide)
          · intro he; rw [he] at h3; exact absurd h3 (by decide)
          · intro he; rw [he] at h4; exact absurd h4 (by decide)
        · simp [h1, h2, h3, h4] at h
      · simp [h1, h2, h3] at h
    · simp [h1, h2] at h
  · simp [h1] at h

/-- What the update handler does on the SQLite database with a body that
passes every rule: 200 and the patched row when a row matches, 500 with
"task not found" and no change when none does. -/
theorem updateTask_sqlite_valid (s : Store) (hs : s.WF) (c : Context Task) (task : Task)
    (hb : c.ShouldBindJSON = .ok task)
    (huid : c.Param "user_id" ≠ "") (htid : c.Param "task_id" ≠ "")
    (hv : firstFailure taskRules task = none) :
    (∀ old ∈ s.tasks, old.ID = c.Param "task_id" → old.UserID = c.Param "user_id" →
        taskHandler sqlite updateTask c s
          = (c.JSON 200 (.task { task with ID := c.Param "task_id", UserID := c.Param "user_id" }),
              ⟨s.users, s.tasks.map (fun r => if r.ID = old.ID then
                patched old { task with ID := c.Param "task_id", UserID := c.Param "user_id" }
                else r)⟩))
    ∧ ((∀ r ∈ s.tasks, ¬ (r.ID = c.Param "task_id" ∧ r.UserID = c.Param "user_id")) →
        taskHandler sqlite updateTask c s = (c.JSON 500 (.error "task not found"), s)) := by
  have hne := nonempty_of_valid task hv
  have hupd : (NewTaskService sqlite (c.Param "user_id")).Update s
        { task with ID := c.Param "task_id" }
      = UpdateTask s { task with ID := c.Param "task_id", UserID := c.Param "user_id" } := rfl
  rw [taskHandler_of_ne sqlite updateTask c s huid, updateTask_by_rules c _ s task hb htid, hv]
  dsimp only
  rw [hupd]
  constructor
  · intro old hold hid huser
    rw [updateTask_of_hit s hs old hold
      { task with ID := c.Param "task_id", UserID := c.Param "user_id" }
      hid.symm huser.symm (Or.inl hne.1)]
  · intro hno
    have hu : updates { task with ID := c.Param "task_id", UserID := c.Param "user_id" } ≠ [] := by
      rw [Ne, updates_eq_nil_iff]
      exact fun h => hne.1 h.1
    rw [updateTask_of_no_hit hu (by intro r hr; simpa using hno r hr)]
    rfl

/-- C19: for a request whose body binds and whose path parameters are
present.  On any database, `updateTask` gives a validation answer (status
400) exactly when `createTask` gives the same one; a body that fails a rule
is answered before the service is called; a body that passes every rule
has a non-empty title, status and due date, and that is the record passed
to `Update`.  On the SQLite database (satisfying the schema) the handler
never answers with the "no fields to update" error, and an update answered
200 leaves the row of the path's task and user with the body's title,
status and due date, and with the body's description unless that is
empty. -/
theorem update_validates_like_create (d : DB σ) (u : UUID) (st : σ) (s : Store) (hs : s.WF)
    (c : Context Task) (task : Task)
    (hc : c.written = []) (hb : c.ShouldBindJSON = .ok task)
    (huid : c.Param "user_id" ≠ "") (htid : c.Param "task_id" ≠ "") :
    (∀ payload, (taskHandler d (createTask u) c st).1.response = (400, payload)
        ↔ (taskHandler d updateTask c st).1.response = (400, payload))
    ∧ (∀ msg, firstFailure taskRules task = some msg →
        taskHandler d updateTask c st = (c.JSON 400 (.error msg), st))
    ∧ (firstFailure taskRules task = none →
        task.Title ≠ "" ∧ task.Status ≠ "" ∧ task.DueDate ≠ ""
        ∧ updates { task with ID := c.Param "task_id", UserID := c.Param "user_id" } ≠ []
        ∧ taskHandler d updateTask c st =
            match (NewTaskService d (c.Param "user_id")).Update st
              { task with ID := c.Param "task_id" } with
            | (st, _, some err) => (c.JSON 500 (.error err.Error), st)
            | (st, task, none) => (c.JSON 200 (.task task), st))
    ∧ (taskHandler sqlite updateTask c s).1.response ≠ (500, [.error "no fields to update"])
    ∧ ((taskHandler sqlite updateTask c s).1.status = 200 →
        ∃ old ∈ s.tasks, old.ID = c.Param "task_id" ∧ old.UserID = c.Param "user_id"
          ∧ GetTask (taskHandler sqlite updateTask c s).2 old.ID
              = .ok ⟨old.ID, task.Title,
                      if task.Description ≠ "" then task.Description else old.Description,
                      task.DueDate, task.Status, old.UserID⟩) := by
  refine ⟨?_, ?_, ?_, ?_, ?_⟩
  · intro payload
    rw [taskHandler_of_ne d (createTask u) c st huid, taskHandler_of_ne d updateTask c st huid,
      createTask_by_rules u c _ st task hb, updateTask_by_rules c _ st task hb htid]
    cases hff : firstFailure taskRules task with
    | some msg => exact Iff.rfl
    | none =>
      dsimp only
      constructor
      · intro h
        have hst := congrArg Prod.fst h
        exfalso
        revert hst
        split
        · rw [Context.response, status_JSON c hc]; simp
        · rw [Context.response, status_JSON c hc]; simp
      · intro h
        have hst := congrArg Prod.fst h
        exfalso
        revert hst
        split
        · rw [Context.response, status_JSON c hc]; simp
        · rw [Context.response, status_JSON c hc]; simp
  · intro msg h
    rw [taskHandler_of_ne d updateTask c st huid, updateTask_by_rules c _ st task hb htid, h]
  · intro h
    have hne := nonempty_of_valid task h
    refine ⟨hne.1, hne.2.1, hne.2.2, ?_, ?_⟩
    · rw [Ne, updates_eq_nil_iff]
      exact fun h' => hne.1 h'.1
    · rw [taskHandler_of_ne d updateTask c st huid, updateTask_by_rules c _ st task hb htid, h]
  · cases hff : firstFailure taskRules task with
    | some msg =>
      rw [taskHandler_of_ne sqlite updateTask c s huid, updateTask_by_rules c _ s task hb htid,
        hff]
      dsimp only
      rw [response_JSON c hc]
      simp
    | none =>
      have hv := updateTask_sqlite_valid s hs c task hb huid htid hff
      by_cases hhit : ∃ old ∈ s.tasks, old.ID = c.Param "task_id" ∧ old.UserID = c.Param "user_id"
      · obtain ⟨old, hold, hid, huser⟩ := hhit
        rw [hv.1 old hold hid huser, response_JSON c hc]
        simp
      · have hno : ∀ r ∈ s.tasks, ¬ (r.ID = c.Param "task_id" ∧ r.UserID = c.Param "user_id") :=
          fun r hr h => hhit ⟨r, hr, h.1, h.2⟩
        rw [hv.2 hno, response_JSON c hc]
        simp
  · intro hok
    cases hff : firstFailure taskRules task with
    | some msg =>
      rw [taskHandler_of_ne sqlite updateTask c s huid, updateTask_by_rules c _ s task hb htid,
        hff] at hok
      dsimp only at hok
      rw [status_JSON c hc] at hok
      exact absurd hok (by decide)
    | none =>
      have hv := updateTask_sqlite_valid s hs c task hb huid htid hff
      have hne := nonempty_of_valid task hff
      by_cases hhit : ∃ old ∈ s.tasks, old.ID = c.Param "task_id" ∧ old.UserID = c.Param "user_id"
      · obtain ⟨old, hold, hid, huser⟩ := hhit
        refine ⟨old, hold, hid, huser, ?_⟩
        rw [hv.1 old hold hid huser]
        have := getTask_of_patched s hs old hold
          { task with ID := c.Param "task_id", UserID := c.Param "user_id" }
        simpa [patched, hne.1, hne.2.1, hne.2.2] using this
      · have hno : ∀ r ∈ s.tasks, ¬ (r.ID = c.Param "task_id" ∧ r.UserID = c.Param "user_id") :=
          fun r hr h => hhit ⟨r, hr, h.1, h.2⟩
        rw [hv.2 hno, status_JSON c hc] at hok
        exact absurd hok (by decide)

/-- Witness for C19: the update of `task1` with an empty description. -/
theorem update_validates_like_create_witness :
    (taskHandler sqlite updateTask
        (Context.new [("user_id", alice), ("task_id", "t1")] []
          (.ok ⟨"", "Updated Task", "", "2025-08-09T15:04:05Z", "done", ""⟩))
        store1).1.response ≠ (500, [.error "no fields to update"])
    ∧ ∃ old ∈ store1.tasks, old.ID = "t1" ∧ old.UserID = alice
        ∧ GetTask (taskHandler sqlite updateTask
            (Context.new [("user_id", alice), ("task_id", "t1")] []
              (.ok ⟨"", "Updated Task", "", "2025-08-09T15:04:05Z", "done", ""⟩))
            store1).2 old.ID
          = .ok ⟨old.ID, "Updated Task", old.Description, "2025-08-09T15:04:05Z", "done",
                  old.UserID⟩ :=
  have h := update_validates_like_create sqlite uuid0 store1 store1 (by decide)
    (Context.new [("user_id", alice), ("task_id", "t1")] []
      (.ok ⟨"", "Updated Task", "", "2025-08-09T15:04:05Z", "done", ""⟩))
    ⟨"", "Updated Task", "", "2025-08-09T15:04:05Z", "done", ""⟩
    rfl rfl (by decide) (by decide)
  ⟨h.2.2.2.1, h.2.2.2.2 (by decide)⟩

end C19

end TaskPlanner
